import Mathlib

/-!
Verification of the progress-state propagation engine of
coursebuilder/models/progress.py (class UnitLessonCompletionTracker) and the
aggregator view in coursebuilder/modules/dashboard/analytics.py.

The development has two layers.

The blob layer is a direct translation of the Python source: a student's
stored progress is a raw blob (the StudentPropertyEntity value); every
primitive decodes the blob, mutates the decoded dictionary and re-encodes it;
Python exceptions are modelled with the Except monad.

The map layer is the same algorithm acting directly on the decoded
key-to-integer dictionary; bridge lemmas show that on a well-formed blob the
blob layer computes exactly the map layer.

Conventions for translating Python:
  - str.split('.') is modelled by pySplit, '.'.join by joinDots;
  - ids are modelled as the strings they contribute to a key (Python formats
    every id with %s); a well-formed id contains no '.' character (noDot);
  - dict get / set / increment are pyGet / pySet / pyInc over an association
    list (first binding wins, as in a dict with unique keys);
  - integer values are Nat (states 0, 1, 2 and event counters).
-/

namespace Progress

/-! ## Python string helpers: split on '.' and join with '.' -/

/-- Model of Python s.split('.') on the character list: n separators give
n + 1 parts. -/
def splitDotsAux : List Char → List (List Char)
  | [] => [[]]
  | c :: rest =>
    let r := splitDotsAux rest
    if c = '.' then [] :: r
    else
      match r with
      | [] => [[c]]
      | h :: t => (c :: h) :: t

/-- Model of Python key.split('.'). -/
def pySplit (s : String) : List String :=
  (splitDotsAux s.data).map String.mk

/-- Model of Python '.'.join(parts). -/
def joinDots : List String → String
  | [] => ""
  | [s] => s
  | s :: rest => s ++ "." ++ joinDots rest

/-- An id is well formed when it contains no '.' character; such ids are the
ones the key codec round-trips (source formats every id into the key with
%s, and '.' is the reserved separator). -/
def noDot (s : String) : Prop := '.' ∉ s.data

instance noDot_decidable (s : String) : Decidable (noDot s) :=
  inferInstanceAs (Decidable ('.' ∉ s.data))

theorem splitDotsAux_ne_nil (l : List Char) : splitDotsAux l ≠ [] := by
  induction l with
  | nil => simp [splitDotsAux]
  | cons c rest ih =>
    simp only [splitDotsAux]
    split
    · simp
    · match h : splitDotsAux rest with
      | [] => simp
      | h' :: t => simp

theorem splitDotsAux_noDot {l : List Char} (h : '.' ∉ l) :
    splitDotsAux l = [l] := by
  induction l with
  | nil => rfl
  | cons c rest ih =>
    simp only [List.mem_cons, not_or] at h
    simp only [splitDotsAux, ih h.2]
    have : ¬ c = '.' := fun hc => h.1 hc.symm
    simp [this]

theorem splitDotsAux_append {a : List Char} (ha : '.' ∉ a) (rest : List Char) :
    splitDotsAux (a ++ '.' :: rest) = a :: splitDotsAux rest := by
  induction a with
  | nil => simp [splitDotsAux]
  | cons c a' ih =>
    simp only [List.mem_cons, not_or] at ha
    have hc : ¬ c = '.' := fun hc => ha.1 hc.symm
    simp [List.cons_append, splitDotsAux, ih ha.2, hc]

theorem string_ext {a b : String} (h : a.data = b.data) : a = b :=
  congrArg String.mk h

theorem pySplit_append {a : String} (ha : noDot a) (rest : String) :
    pySplit (a ++ "." ++ rest) = a :: pySplit rest := by
  unfold pySplit
  rw [String.data_append, String.data_append]
  have hdot : ("." : String).data = ['.'] := rfl
  rw [hdot, List.append_assoc, List.singleton_append, splitDotsAux_append ha]
  have hmk : String.mk a.data = a := rfl
  simp [hmk]

theorem pySplit_noDot {a : String} (ha : noDot a) : pySplit a = [a] := by
  unfold pySplit
  rw [splitDotsAux_noDot ha]
  simp

/-! ## Key codec (UnitLessonCompletionTracker key constants and helpers) -/

/-- NOT_STARTED_STATE = 0. -/
def NOT_STARTED_STATE : Nat := 0

/-- IN_PROGRESS_STATE = 1. -/
def IN_PROGRESS_STATE : Nat := 1

/-- COMPLETED_STATE = 2. -/
def COMPLETED_STATE : Nat := 2

/-- The entity kinds of EVENT_CODE_MAPPING. -/
inductive Entity
  | unit | lesson | activity | html | block | assessment | component
deriving DecidableEq, Repr

/-- EVENT_CODE_MAPPING: entity name to key code. -/
def eventCode : Entity → String
  | .unit => "u"
  | .lesson => "l"
  | .activity => "a"
  | .html => "h"
  | .block => "b"
  | .assessment => "s"
  | .component => "c"

/-- COMPOSITE_ENTITIES: the codes of unit, lesson, activity, html. -/
def COMPOSITE_ENTITIES : List String := ["u", "l", "a", "h"]

/-- The source's _get_unit_key: 'u.<unit_id>'. -/
def unit_key (u : String) : String := "u." ++ u

/-- The source's _get_lesson_key: 'u.<unit_id>.l.<lesson_id>'. -/
def lesson_key (u l : String) : String := "u." ++ u ++ ".l." ++ l

/-- The source's _get_activity_key: 'u.<unit_id>.l.<lesson_id>.a.0'. -/
def activity_key (u l : String) : String := "u." ++ u ++ ".l." ++ l ++ ".a.0"

/-- The source's _get_html_key: 'u.<unit_id>.l.<lesson_id>.h.0'. -/
def html_key (u l : String) : String := "u." ++ u ++ ".l." ++ l ++ ".h.0"

/-- The source's _get_block_key: 'u.<u>.l.<l>.a.0.b.<block_id>'. -/
def block_key (u l b : String) : String :=
  "u." ++ u ++ ".l." ++ l ++ ".a.0.b." ++ b

/-- The source's _get_component_key: 'u.<u>.l.<l>.h.0.c.<component_id>'. -/
def component_key (u l c : String) : String :=
  "u." ++ u ++ ".l." ++ l ++ ".h.0.c." ++ c

/-- The source's _get_assessment_key: 's.<assessment_id>'. -/
def assessment_key (a : String) : String := "s." ++ a

/-- get_entity_type_from_key: key.split('.')[-2].  Python raises IndexError
on fewer than two tokens; that case is modelled as none. -/
def get_entity_type_from_key (progress_entity_key : String) : Option String :=
  let parts := pySplit progress_entity_key
  if 2 ≤ parts.length then parts[parts.length - 2]? else none

/-- determine_if_composite_entity: entity type of the key is one of
COMPOSITE_ENTITIES. -/
def determine_if_composite_entity (progress_entity_key : String) : Bool :=
  match get_entity_type_from_key progress_entity_key with
  | some t => COMPOSITE_ENTITIES.contains t
  | none => false

/-- The generate_parent_id rule of DERIVED_EVENTS:
'.'.join(s.split('.')[:-2]). -/
def generate_parent_id (s : String) : String :=
  joinDots ((pySplit s).dropLast.dropLast)

/-! ## Decoded progress dictionary: Python dict primitives -/

/-- A decoded progress record: the flat key-to-integer mapping stored in the
blob. -/
abbrev ProgressMap := List (String × Nat)

/-- Python dict.get(key): first binding wins. -/
def pyGet : ProgressMap → String → Option Nat
  | [], _ => none
  | (k', v') :: rest, k => if k' = k then some v' else pyGet rest k

/-- Python dict[key] = value: replace the binding in place, or append. -/
def pySet : ProgressMap → String → Nat → ProgressMap
  | [], k, v => [(k, v)]
  | (k', v') :: rest, k, v =>
    if k' = k then (k, v) :: rest else (k', v') :: pySet rest k v

/-- The dictionary mutation of the source's _inc: initialize an absent key to
0, then add value. -/
def pyInc (m : ProgressMap) (k : String) (value : Nat) : ProgressMap :=
  let m0 := if (pyGet m k).isNone then pySet m k 0 else m
  pySet m0 k ((pyGet m0 k).getD 0 + value)

theorem pyGet_pySet_self (m : ProgressMap) (k : String) (v : Nat) :
    pyGet (pySet m k v) k = some v := by
  induction m with
  | nil => simp [pySet, pyGet]
  | cons p rest ih =>
    obtain ⟨k', v'⟩ := p
    by_cases h : k' = k <;> simp [pySet, pyGet, h, ih]

theorem pyGet_pySet_ne (m : ProgressMap) {k k' : String} (v : Nat)
    (h : k' ≠ k) : pyGet (pySet m k v) k' = pyGet m k' := by
  have h' : k ≠ k' := Ne.symm h
  induction m with
  | nil => simp [pySet, pyGet, h']
  | cons p rest ih =>
    obtain ⟨k0, v0⟩ := p
    by_cases h0 : k0 = k
    · subst h0
      simp [pySet, pyGet, h']
    · simp [pySet, pyGet, h0, ih]

theorem pyGet_pyInc_self (m : ProgressMap) (k : String) (v : Nat) :
    pyGet (pyInc m k v) k = some ((pyGet m k).getD 0 + v) := by
  unfold pyInc
  by_cases h : (pyGet m k).isNone
  · simp [h, pyGet_pySet_self]
    cases hm : pyGet m k with
    | none => simp
    | some n => rw [hm] at h; simp at h
  · simp [h, pyGet_pySet_self]

theorem pyGet_pyInc_ne (m : ProgressMap) {k k' : String} (v : Nat)
    (h : k' ≠ k) : pyGet (pyInc m k v) k' = pyGet m k' := by
  unfold pyInc
  by_cases hm : (pyGet m k).isNone <;>
    simp [hm, pyGet_pySet_ne _ _ h]

/-! ## Token decomposition of the hierarchical keys -/

theorem joinDots_cons (t r : String) (rs : List String) :
    joinDots (t :: r :: rs) = t ++ "." ++ joinDots (r :: rs) := rfl

theorem pySplit_joinDots_cons {t : String} (ht : noDot t) (r : String)
    (rs : List String) :
    pySplit (joinDots (t :: r :: rs)) = t :: pySplit (joinDots (r :: rs)) := by
  rw [joinDots_cons, pySplit_append ht]

theorem unit_key_eq (u : String) : unit_key u = joinDots ["u", u] := by
  apply string_ext
  have h1 : ("u." : String).data = ['u', '.'] := rfl
  simp [unit_key, joinDots, String.data_append, h1]

theorem lesson_key_eq (u l : String) :
    lesson_key u l = joinDots ["u", u, "l", l] := by
  apply string_ext
  have h1 : ("u." : String).data = ['u', '.'] := rfl
  have h2 : (".l." : String).data = ['.', 'l', '.'] := rfl
  simp [lesson_key, joinDots, String.data_append, h1, h2]

theorem activity_key_eq (u l : String) :
    activity_key u l = joinDots ["u", u, "l", l, "a", "0"] := by
  apply string_ext
  have h1 : ("u." : String).data = ['u', '.'] := rfl
  have h2 : (".l." : String).data = ['.', 'l', '.'] := rfl
  have h3 : (".a.0" : String).data = ['.', 'a', '.', '0'] := rfl
  simp [activity_key, joinDots, String.data_append, h1, h2, h3]

theorem html_key_eq (u l : String) :
    html_key u l = joinDots ["u", u, "l", l, "h", "0"] := by
  apply string_ext
  have h1 : ("u." : String).data = ['u', '.'] := rfl
  have h2 : (".l." : String).data = ['.', 'l', '.'] := rfl
  have h3 : (".h.0" : String).data = ['.', 'h', '.', '0'] := rfl
  simp [html_key, joinDots, String.data_append, h1, h2, h3]

theorem block_key_eq (u l b : String) :
    block_key u l b = joinDots ["u", u, "l", l, "a", "0", "b", b] := by
  apply string_ext
  have h1 : ("u." : String).data = ['u', '.'] := rfl
  have h2 : (".l." : String).data = ['.', 'l', '.'] := rfl
  have h3 : (".a.0.b." : String).data = ['.', 'a', '.', '0', '.', 'b', '.'] := rfl
  simp [block_key, joinDots, String.data_append, h1, h2, h3]

theorem component_key_eq (u l c : String) :
    component_key u l c = joinDots ["u", u, "l", l, "h", "0", "c", c] := by
  apply string_ext
  have h1 : ("u." : String).data = ['u', '.'] := rfl
  have h2 : (".l." : String).data = ['.', 'l', '.'] := rfl
  have h3 : (".h.0.c." : String).data = ['.', 'h', '.', '0', '.', 'c', '.'] := rfl
  simp [component_key, joinDots, String.data_append, h1, h2, h3]

theorem assessment_key_eq (a : String) :
    assessment_key a = joinDots ["s", a] := by
  apply string_ext
  have h1 : ("s." : String).data = ['s', '.'] := rfl
  simp [assessment_key, joinDots, String.data_append, h1]

theorem pySplit_singleton {t : String} (ht : noDot t) :
    pySplit (joinDots [t]) = [t] := by
  simp [joinDots, pySplit_noDot ht]

theorem pySplit_unit_key {u : String} (hu : noDot u) :
    pySplit (unit_key u) = ["u", u] := by
  rw [unit_key_eq, pySplit_joinDots_cons (by decide), pySplit_singleton hu]

theorem pySplit_lesson_key {u l : String} (hu : noDot u) (hl : noDot l) :
    pySplit (lesson_key u l) = ["u", u, "l", l] := by
  rw [lesson_key_eq, pySplit_joinDots_cons (by decide),
    pySplit_joinDots_cons hu, pySplit_joinDots_cons (by decide),
    pySplit_singleton hl]

theorem pySplit_activity_key {u l : String} (hu : noDot u) (hl : noDot l) :
    pySplit (activity_key u l) = ["u", u, "l", l, "a", "0"] := by
  rw [activity_key_eq, pySplit_joinDots_cons (by decide),
    pySplit_joinDots_cons hu, pySplit_joinDots_cons (by decide),
    pySplit_joinDots_cons hl, pySplit_joinDots_cons (by decide),
    pySplit_singleton (by decide)]

theorem pySplit_html_key {u l : String} (hu : noDot u) (hl : noDot l) :
    pySplit (html_key u l) = ["u", u, "l", l, "h", "0"] := by
  rw [html_key_eq, pySplit_joinDots_cons (by decide),
    pySplit_joinDots_cons hu, pySplit_joinDots_cons (by decide),
    pySplit_joinDots_cons hl, pySplit_joinDots_cons (by decide),
    pySplit_singleton (by decide)]

theorem pySplit_block_key {u l b : String} (hu : noDot u) (hl : noDot l)
    (hb : noDot b) :
    pySplit (block_key u l b) = ["u", u, "l", l, "a", "0", "b", b] := by
  rw [block_key_eq, pySplit_joinDots_cons (by decide),
    pySplit_joinDots_cons hu, pySplit_joinDots_cons (by decide),
    pySplit_joinDots_cons hl, pySplit_joinDots_cons (by decide),
    pySplit_joinDots_cons (by decide), pySplit_joinDots_cons (by decide),
    pySplit_singleton hb]

theorem pySplit_component_key {u l c : String} (hu : noDot u) (hl : noDot l)
    (hc : noDot c) :
    pySplit (component_key u l c) = ["u", u, "l", l, "h", "0", "c", c] := by
  rw [component_key_eq, pySplit_joinDots_cons (by decide),
    pySplit_joinDots_cons hu, pySplit_joinDots_cons (by decide),
    pySplit_joinDots_cons hl, pySplit_joinDots_cons (by decide),
    pySplit_joinDots_cons (by decide), pySplit_joinDots_cons (by decide),
    pySplit_singleton hc]

theorem pySplit_assessment_key {a : String} (ha : noDot a) :
    pySplit (assessment_key a) = ["s", a] := by
  rw [assessment_key_eq, pySplit_joinDots_cons (by decide),
    pySplit_singleton ha]

/-! ## Entity type, compositeness and parent id of well-formed keys -/

theorem entity_type_unit_key {u : String} (hu : noDot u) :
    get_entity_type_from_key (unit_key u) = some "u" := by
  unfold get_entity_type_from_key
  rw [pySplit_unit_key hu]
  simp

theorem entity_type_lesson_key {u l : String} (hu : noDot u) (hl : noDot l) :
    get_entity_type_from_key (lesson_key u l) = some "l" := by
  unfold get_entity_type_from_key
  rw [pySplit_lesson_key hu hl]
  simp

theorem entity_type_activity_key {u l : String} (hu : noDot u)
    (hl : noDot l) :
    get_entity_type_from_key (activity_key u l) = some "a" := by
  unfold get_entity_type_from_key
  rw [pySplit_activity_key hu hl]
  simp

theorem entity_type_html_key {u l : String} (hu : noDot u) (hl : noDot l) :
    get_entity_type_from_key (html_key u l) = some "h" := by
  unfold get_entity_type_from_key
  rw [pySplit_html_key hu hl]
  simp

theorem entity_type_block_key {u l b : String} (hu : noDot u) (hl : noDot l)
    (hb : noDot b) :
    get_entity_type_from_key (block_key u l b) = some "b" := by
  unfold get_entity_type_from_key
  rw [pySplit_block_key hu hl hb]
  simp

theorem entity_type_component_key {u l c : String} (hu : noDot u)
    (hl : noDot l) (hc : noDot c) :
    get_entity_type_from_key (component_key u l c) = some "c" := by
  unfold get_entity_type_from_key
  rw [pySplit_component_key hu hl hc]
  simp

theorem entity_type_assessment_key {a : String} (ha : noDot a) :
    get_entity_type_from_key (assessment_key a) = some "s" := by
  unfold get_entity_type_from_key
  rw [pySplit_assessment_key ha]
  simp

theorem composite_unit_key {u : String} (hu : noDot u) :
    determine_if_composite_entity (unit_key u) = true := by
  unfold determine_if_composite_entity
  rw [entity_type_unit_key hu]
  rfl

theorem composite_lesson_key {u l : String} (hu : noDot u) (hl : noDot l) :
    determine_if_composite_entity (lesson_key u l) = true := by
  unfold determine_if_composite_entity
  rw [entity_type_lesson_key hu hl]
  rfl

theorem composite_activity_key {u l : String} (hu : noDot u) (hl : noDot l) :
    determine_if_composite_entity (activity_key u l) = true := by
  unfold determine_if_composite_entity
  rw [entity_type_activity_key hu hl]
  rfl

theorem composite_html_key {u l : String} (hu : noDot u) (hl : noDot l) :
    determine_if_composite_entity (html_key u l) = true := by
  unfold determine_if_composite_entity
  rw [entity_type_html_key hu hl]
  rfl

theorem composite_block_key {u l b : String} (hu : noDot u) (hl : noDot l)
    (hb : noDot b) :
    determine_if_composite_entity (block_key u l b) = false := by
  unfold determine_if_composite_entity
  rw [entity_type_block_key hu hl hb]
  rfl

theorem composite_component_key {u l c : String} (hu : noDot u)
    (hl : noDot l) (hc : noDot c) :
    determine_if_composite_entity (component_key u l c) = false := by
  unfold determine_if_composite_entity
  rw [entity_type_component_key hu hl hc]
  rfl

theorem composite_assessment_key {a : String} (ha : noDot a) :
    determine_if_composite_entity (assessment_key a) = false := by
  unfold determine_if_composite_entity
  rw [entity_type_assessment_key ha]
  rfl

theorem parent_of_lesson_key {u l : String} (hu : noDot u) (hl : noDot l) :
    generate_parent_id (lesson_key u l) = unit_key u := by
  unfold generate_parent_id
  rw [pySplit_lesson_key hu hl]
  simp [List.dropLast]
  exact (unit_key_eq u).symm

theorem parent_of_activity_key {u l : String} (hu : noDot u) (hl : noDot l) :
    generate_parent_id (activity_key u l) = lesson_key u l := by
  unfold generate_parent_id
  rw [pySplit_activity_key hu hl]
  simp [List.dropLast]
  exact (lesson_key_eq u l).symm

theorem parent_of_html_key {u l : String} (hu : noDot u) (hl : noDot l) :
    generate_parent_id (html_key u l) = lesson_key u l := by
  unfold generate_parent_id
  rw [pySplit_html_key hu hl]
  simp [List.dropLast]
  exact (lesson_key_eq u l).symm

theorem parent_of_block_key {u l b : String} (hu : noDot u) (hl : noDot l)
    (hb : noDot b) :
    generate_parent_id (block_key u l b) = activity_key u l := by
  unfold generate_parent_id
  rw [pySplit_block_key hu hl hb]
  simp [List.dropLast]
  exact (activity_key_eq u l).symm

theorem parent_of_component_key {u l c : String} (hu : noDot u)
    (hl : noDot l) (hc : noDot c) :
    generate_parent_id (component_key u l c) = html_key u l := by
  unfold generate_parent_id
  rw [pySplit_component_key hu hl hc]
  simp [List.dropLast]
  exact (html_key_eq u l).symm

/-- C5: for every entity type, the key built by the type's key constructor
with well-formed (dot-free) ids maps back to the type's code under
get_entity_type_from_key, and the generate_parent_id rule (strip the last two
dot-separated tokens) sends a child key to exactly the key the parent's own
constructor builds from the same ancestor ids. -/
theorem c5_key_codec_roundtrip (u l b c a : String) (hu : noDot u)
    (hl : noDot l) (hb : noDot b) (hc : noDot c) (ha : noDot a) :
    get_entity_type_from_key (unit_key u) = some (eventCode .unit)
    ∧ get_entity_type_from_key (lesson_key u l) = some (eventCode .lesson)
    ∧ get_entity_type_from_key (activity_key u l) = some (eventCode .activity)
    ∧ get_entity_type_from_key (html_key u l) = some (eventCode .html)
    ∧ get_entity_type_from_key (block_key u l b) = some (eventCode .block)
    ∧ get_entity_type_from_key (component_key u l c)
        = some (eventCode .component)
    ∧ get_entity_type_from_key (assessment_key a)
        = some (eventCode .assessment)
    ∧ generate_parent_id (lesson_key u l) = unit_key u
    ∧ generate_parent_id (activity_key u l) = lesson_key u l
    ∧ generate_parent_id (html_key u l) = lesson_key u l
    ∧ generate_parent_id (block_key u l b) = activity_key u l
    ∧ generate_parent_id (component_key u l c) = html_key u l :=
  ⟨entity_type_unit_key hu, entity_type_lesson_key hu hl,
    entity_type_activity_key hu hl, entity_type_html_key hu hl,
    entity_type_block_key hu hl hb, entity_type_component_key hu hl hc,
    entity_type_assessment_key ha, parent_of_lesson_key hu hl,
    parent_of_activity_key hu hl, parent_of_html_key hu hl,
    parent_of_block_key hu hl hb, parent_of_component_key hu hl hc⟩

/-- Witness for C5 at concrete ids: unit 1, lesson 2, block 4,
component 'c1x', assessment 'Pre'. -/
theorem c5_key_codec_roundtrip_witness :
    noDot "1" ∧ noDot "2" ∧ noDot "4" ∧ noDot "c1x" ∧ noDot "Pre"
    ∧ (get_entity_type_from_key (unit_key "1") = some (eventCode .unit)
      ∧ get_entity_type_from_key (lesson_key "1" "2")
          = some (eventCode .lesson)
      ∧ get_entity_type_from_key (activity_key "1" "2")
          = some (eventCode .activity)
      ∧ get_entity_type_from_key (html_key "1" "2") = some (eventCode .html)
      ∧ get_entity_type_from_key (block_key "1" "2" "4")
          = some (eventCode .block)
      ∧ get_entity_type_from_key (component_key "1" "2" "c1x")
          = some (eventCode .component)
      ∧ get_entity_type_from_key (assessment_key "Pre")
          = some (eventCode .assessment)
      ∧ generate_parent_id (lesson_key "1" "2") = unit_key "1"
      ∧ generate_parent_id (activity_key "1" "2") = lesson_key "1" "2"
      ∧ generate_parent_id (html_key "1" "2") = lesson_key "1" "2"
      ∧ generate_parent_id (block_key "1" "2" "4") = activity_key "1" "2"
      ∧ generate_parent_id (component_key "1" "2" "c1x")
          = html_key "1" "2") :=
  ⟨by decide, by decide, by decide, by decide, by decide,
    c5_key_codec_roundtrip "1" "2" "4" "c1x" "Pre" (by decide) (by decide)
      (by decide) (by decide) (by decide)⟩

/-! ## Course structure provider (external collaborator) -/

/-- Modelled from the spec: one lesson of the course structure provider; only
the fields the tracker reads (lesson_id, compared with str(), and the
truthiness of lesson.activity).  lesson_id is the string the id contributes
to a key. -/
structure Lesson where
  lesson_id : String
  activity : Bool
deriving DecidableEq, Repr

/-- Modelled from the spec: the course structure provider interface consumed
by the tracker (courses.py is outside the sources): is_valid_unit_lesson_id,
is_valid_assessment_id, get_lessons, and the derived get_valid_block_ids /
get_valid_component_ids enumerations, all synchronous side-effect-free
queries.  Ids are the strings they contribute to keys. -/
structure Course where
  get_lessons : String → List Lesson
  is_valid_unit_lesson_id : String → String → Bool
  is_valid_assessment_id : String → Bool
  get_valid_block_ids : String → String → List String
  get_valid_component_ids : String → String → List String

/-- A student; the tracker only reads student.is_transient. -/
structure Student where
  is_transient : Bool

/-! ## Map layer: the tracker acting on the decoded dictionary

Each function mirrors the Python source with the blob round-trip of
_get_entity_value / _set_entity_value / _inc fused into direct dictionary
access (pyGet / pySet / pyInc); the blob layer below keeps the round-trip
explicit and is related to these by bridge lemmas. -/

/-- get_lesson_status on the decoded map. -/
def get_lesson_status_m (m : ProgressMap) (u l : String) : Option Nat :=
  pyGet m (lesson_key u l)

/-- get_activity_status on the decoded map. -/
def get_activity_status_m (m : ProgressMap) (u l : String) : Option Nat :=
  pyGet m (activity_key u l)

/-- get_html_status on the decoded map. -/
def get_html_status_m (m : ProgressMap) (u l : String) : Option Nat :=
  pyGet m (html_key u l)

/-- is_block_completed on the decoded map: value is not None and
value > 0. -/
def is_block_completed_m (m : ProgressMap) (u l b : String) : Bool :=
  match pyGet m (block_key u l b) with
  | some v => 0 < v
  | none => false

/-- is_component_completed on the decoded map: value is not None and
value > 0. -/
def is_component_completed_m (m : ProgressMap) (u l c : String) : Bool :=
  match pyGet m (component_key u l c) with
  | some v => 0 < v
  | none => false

/-- _update_unit on the decoded map: skip when already COMPLETED, mark
IN_PROGRESS, then COMPLETED when every lesson of the unit has lesson-status
COMPLETED. -/
def update_unit_m (c : Course) (m : ProgressMap) (event_key : String) :
    ProgressMap :=
  let unit_id := (pySplit event_key)[1]?.getD ""
  if pyGet m event_key == some COMPLETED_STATE then m
  else
    let m1 := pySet m event_key IN_PROGRESS_STATE
    if (c.get_lessons unit_id).all (fun le =>
        get_lesson_status_m m1 unit_id le.lesson_id == some COMPLETED_STATE)
    then pySet m1 event_key COMPLETED_STATE
    else m1

/-- _update_lesson on the decoded map: skip when already COMPLETED, mark
IN_PROGRESS, then COMPLETED unless some lesson whose str(lesson_id) equals
the key's lesson_id token has an incomplete activity (when it has one) or an
incomplete html body. -/
def update_lesson_m (c : Course) (m : ProgressMap) (event_key : String) :
    ProgressMap :=
  let parts := pySplit event_key
  let unit_id := parts[1]?.getD ""
  let lesson_id := parts[3]?.getD ""
  if pyGet m event_key == some COMPLETED_STATE then m
  else
    let m1 := pySet m event_key IN_PROGRESS_STATE
    if (c.get_lessons unit_id).all (fun le =>
        if le.lesson_id = lesson_id then
          (!le.activity
            || get_activity_status_m m1 unit_id lesson_id
                == some COMPLETED_STATE)
          && (get_html_status_m m1 unit_id lesson_id == some COMPLETED_STATE)
        else true)
    then pySet m1 event_key COMPLETED_STATE
    else m1

/-- _update_activity on the decoded map: skip when already COMPLETED, mark
IN_PROGRESS, then COMPLETED when every valid block id is completed. -/
def update_activity_m (c : Course) (m : ProgressMap) (event_key : String) :
    ProgressMap :=
  let parts := pySplit event_key
  let unit_id := parts[1]?.getD ""
  let lesson_id := parts[3]?.getD ""
  if pyGet m event_key == some COMPLETED_STATE then m
  else
    let m1 := pySet m event_key IN_PROGRESS_STATE
    if (c.get_valid_block_ids unit_id lesson_id).all (fun b =>
        is_block_completed_m m1 unit_id lesson_id b)
    then pySet m1 event_key COMPLETED_STATE
    else m1

/-- _update_html on the decoded map: skip when already COMPLETED, mark
IN_PROGRESS, then COMPLETED when every valid component id is completed. -/
def update_html_m (c : Course) (m : ProgressMap) (event_key : String) :
    ProgressMap :=
  let parts := pySplit event_key
  let unit_id := parts[1]?.getD ""
  let lesson_id := parts[3]?.getD ""
  if pyGet m event_key == some COMPLETED_STATE then m
  else
    let m1 := pySet m event_key IN_PROGRESS_STATE
    if (c.get_valid_component_ids unit_id lesson_id).all (fun cid =>
        is_component_completed_m m1 unit_id lesson_id cid)
    then pySet m1 event_key COMPLETED_STATE
    else m1

/-- Membership in UPDATER_MAPPING: activity, html, lesson, unit. -/
def hasUpdater : Entity → Bool
  | .activity | .html | .lesson | .unit => true
  | _ => false

/-- DERIVED_EVENTS: the derived parent entity of each event entity; every
entry uses the same generate_parent_id transformation (strip the last two
key tokens). -/
def derivedParent : Entity → Option Entity
  | .block => some .activity
  | .activity => some .lesson
  | .lesson => some .unit
  | .component => some .html
  | .html => some .lesson
  | .unit => none
  | .assessment => none

/-- Depth of an entity in the derived-events chains; the derived parent
always has smaller rank, which bounds the recursion of _update_event. -/
def Entity.rank : Entity → Nat
  | .block => 3
  | .component => 3
  | .activity => 2
  | .html => 2
  | .lesson => 1
  | .unit => 0
  | .assessment => 0

/-- Dispatch through UPDATER_MAPPING on the decoded map.  The catch-all arm
is unreachable: the caller guards with hasUpdater. -/
def runUpdater_m (c : Course) (m : ProgressMap) (e : Entity)
    (event_key : String) : ProgressMap :=
  match e with
  | .activity => update_activity_m c m event_key
  | .html => update_html_m c m event_key
  | .lesson => update_lesson_m c m event_key
  | .unit => update_unit_m c m event_key
  | _ => m

/-- _update_event on the decoded map: handle the event directly (force
COMPLETED for a direct event on an entity with an updater, increment the
counter of an entity without one) or run the entity's updater, then recurse
into the derived parent with the truncated key. -/
def update_event_m (c : Course) (m : ProgressMap) (e : Entity)
    (event_key : String) (direct_update : Bool) : ProgressMap :=
  let m1 :=
    if direct_update || !hasUpdater e then
      if hasUpdater e then pySet m event_key COMPLETED_STATE
      else pyInc m event_key 1
    else runUpdater_m c m e event_key
  match hp : derivedParent e with
  | some pe => update_event_m c m1 pe (generate_parent_id event_key) false
  | none => m1
termination_by e.rank
decreasing_by cases e <;> simp_all [derivedParent] <;> subst hp <;> decide

/-- _put_event on the decoded map: ignore transient students, then start the
cascade with direct_update = True.  (event_entity is always a member of
EVENT_CODE_MAPPING here; get_or_create_progress and the final put() are the
persistence boundary, outside the decoded map.) -/
def put_event_m (c : Course) (st : Student) (m : ProgressMap) (e : Entity)
    (event_key : String) : ProgressMap :=
  if st.is_transient then m else update_event_m c m e event_key true

/-- put_activity_completed on the decoded map. -/
def put_activity_completed_m (c : Course) (st : Student) (m : ProgressMap)
    (u l : String) : ProgressMap :=
  if !c.is_valid_unit_lesson_id u l then m
  else put_event_m c st m .activity (activity_key u l)

/-- put_html_completed on the decoded map. -/
def put_html_completed_m (c : Course) (st : Student) (m : ProgressMap)
    (u l : String) : ProgressMap :=
  if !c.is_valid_unit_lesson_id u l then m
  else put_event_m c st m .html (html_key u l)

/-- put_block_completed on the decoded map: both validity guards precede any
state change. -/
def put_block_completed_m (c : Course) (st : Student) (m : ProgressMap)
    (u l b : String) : ProgressMap :=
  if !c.is_valid_unit_lesson_id u l then m
  else if !(c.get_valid_block_ids u l).contains b then m
  else put_event_m c st m .block (block_key u l b)

/-- put_component_completed on the decoded map. -/
def put_component_completed_m (c : Course) (st : Student) (m : ProgressMap)
    (u l cid : String) : ProgressMap :=
  if !c.is_valid_unit_lesson_id u l then m
  else if !(c.get_valid_component_ids u l).contains cid then m
  else put_event_m c st m .component (component_key u l cid)

/-- put_assessment_completed on the decoded map. -/
def put_assessment_completed_m (c : Course) (st : Student) (m : ProgressMap)
    (a : String) : ProgressMap :=
  if !c.is_valid_assessment_id a then m
  else put_event_m c st m .assessment (assessment_key a)

/-- put_activity_accessed on the decoded map: an activity without
interactive blocks is marked completed when accessed. -/
def put_activity_accessed_m (c : Course) (st : Student) (m : ProgressMap)
    (u l : String) : ProgressMap :=
  if (c.get_valid_block_ids u l).isEmpty then
    put_activity_completed_m c st m u l
  else m

/-- put_html_accessed on the decoded map: a lesson body without trackable
components is marked completed when accessed. -/
def put_html_accessed_m (c : Course) (st : Student) (m : ProgressMap)
    (u l : String) : ProgressMap :=
  if (c.get_valid_component_ids u l).isEmpty then
    put_html_completed_m c st m u l
  else m

/-! ## Unfolding equations of the cascade, one per entity -/

theorem update_event_m_block (c : Course) (m : ProgressMap) (key : String)
    (du : Bool) :
    update_event_m c m .block key du
      = update_event_m c (pyInc m key 1) .activity (generate_parent_id key)
          false := by
  rw [update_event_m]
  simp [hasUpdater, derivedParent]

theorem update_event_m_component (c : Course) (m : ProgressMap)
    (key : String) (du : Bool) :
    update_event_m c m .component key du
      = update_event_m c (pyInc m key 1) .html (generate_parent_id key)
          false := by
  rw [update_event_m]
  simp [hasUpdater, derivedParent]

theorem update_event_m_assessment (c : Course) (m : ProgressMap)
    (key : String) (du : Bool) :
    update_event_m c m .assessment key du = pyInc m key 1 := by
  rw [update_event_m]
  simp [hasUpdater, derivedParent]

theorem update_event_m_activity_direct (c : Course) (m : ProgressMap)
    (key : String) :
    update_event_m c m .activity key true
      = update_event_m c (pySet m key COMPLETED_STATE) .lesson
          (generate_parent_id key) false := by
  rw [update_event_m]
  simp [hasUpdater, derivedParent]

theorem update_event_m_activity_derived (c : Course) (m : ProgressMap)
    (key : String) :
    update_event_m c m .activity key false
      = update_event_m c (update_activity_m c m key) .lesson
          (generate_parent_id key) false := by
  rw [update_event_m]
  simp [hasUpdater, derivedParent, runUpdater_m]

theorem update_event_m_html_direct (c : Course) (m : ProgressMap)
    (key : String) :
    update_event_m c m .html key true
      = update_event_m c (pySet m key COMPLETED_STATE) .lesson
          (generate_parent_id key) false := by
  rw [update_event_m]
  simp [hasUpdater, derivedParent]

theorem update_event_m_html_derived (c : Course) (m : ProgressMap)
    (key : String) :
    update_event_m c m .html key false
      = update_event_m c (update_html_m c m key) .lesson
          (generate_parent_id key) false := by
  rw [update_event_m]
  simp [hasUpdater, derivedParent, runUpdater_m]

theorem update_event_m_lesson_derived (c : Course) (m : ProgressMap)
    (key : String) :
    update_event_m c m .lesson key false
      = update_event_m c (update_lesson_m c m key) .unit
          (generate_parent_id key) false := by
  rw [update_event_m]
  simp [hasUpdater, derivedParent, runUpdater_m]

theorem update_event_m_lesson_direct (c : Course) (m : ProgressMap)
    (key : String) :
    update_event_m c m .lesson key true
      = update_event_m c (pySet m key COMPLETED_STATE) .unit
          (generate_parent_id key) false := by
  rw [update_event_m]
  simp [hasUpdater, derivedParent]

theorem update_event_m_unit_derived (c : Course) (m : ProgressMap)
    (key : String) :
    update_event_m c m .unit key false = update_unit_m c m key := by
  rw [update_event_m]
  simp [hasUpdater, derivedParent, runUpdater_m]

theorem update_event_m_unit_direct (c : Course) (m : ProgressMap)
    (key : String) :
    update_event_m c m .unit key true = pySet m key COMPLETED_STATE := by
  rw [update_event_m]
  simp [hasUpdater, derivedParent]

/-! ## Monotonicity of composite values and the composite-range invariant -/

/-- The integer read at a key, with 0 for an absent key (the source treats
absence as NOT_STARTED). -/
def valAt (m : ProgressMap) (k : String) : Nat := (pyGet m k).getD 0

/-- Every composite key present in the map holds IN_PROGRESS (1) or
COMPLETED (2) — never NOT_STARTED (0), which is represented by absence. -/
def CompositeInv (m : ProgressMap) : Prop :=
  ∀ k v, determine_if_composite_entity k = true → pyGet m k = some v →
    v = IN_PROGRESS_STATE ∨ v = COMPLETED_STATE

/-- One evolution step of the record: assuming the composite-range
invariant, it is preserved, every composite value is non-decreasing, and a
COMPLETED composite stays COMPLETED. -/
def MonoStep (m m' : ProgressMap) : Prop :=
  CompositeInv m →
    CompositeInv m' ∧
      ∀ k, determine_if_composite_entity k = true →
        valAt m k ≤ valAt m' k
          ∧ (pyGet m k = some COMPLETED_STATE →
              pyGet m' k = some COMPLETED_STATE)

theorem MonoStep_refl (m : ProgressMap) : MonoStep m m :=
  fun hinv => ⟨hinv, fun _ _ => ⟨le_refl _, fun h => h⟩⟩

theorem MonoStep_trans {a b c : ProgressMap} (h1 : MonoStep a b)
    (h2 : MonoStep b c) : MonoStep a c := by
  intro hinv
  obtain ⟨hb, f1⟩ := h1 hinv
  obtain ⟨hc, f2⟩ := h2 hb
  exact ⟨hc, fun k hk =>
    ⟨le_trans (f1 k hk).1 (f2 k hk).1, fun h => (f2 k hk).2 ((f1 k hk).2 h)⟩⟩

theorem MonoStep_pyInc (m : ProgressMap) (key : String) (v : Nat)
    (hk : determine_if_composite_entity key = false) :
    MonoStep m (pyInc m key v) := by
  intro hinv
  constructor
  · intro k vv hkc hg
    have hne : k ≠ key := fun he => by rw [he, hk] at hkc; cases hkc
    rw [pyGet_pyInc_ne m v hne] at hg
    exact hinv k vv hkc hg
  · intro k hkc
    have hne : k ≠ key := fun he => by rw [he, hk] at hkc; cases hkc
    rw [valAt, valAt, pyGet_pyInc_ne m v hne]
    exact ⟨le_refl _, fun h => h⟩

theorem MonoStep_pySet2 (m : ProgressMap) (key : String)
    (hk : determine_if_composite_entity key = true) :
    MonoStep m (pySet m key COMPLETED_STATE) := by
  intro hinv
  constructor
  · intro k vv hkc hg
    by_cases he : k = key
    · subst he
      rw [pyGet_pySet_self] at hg
      right
      exact (Option.some_injective _ hg).symm
    · rw [pyGet_pySet_ne m _ he] at hg
      exact hinv k vv hkc hg
  · intro k hkc
    by_cases he : k = key
    · subst he
      constructor
      · rw [valAt, valAt, pyGet_pySet_self]
        cases hg : pyGet m k with
        | none => simp
        | some v =>
          rcases hinv k v hkc hg with h1 | h1 <;> subst h1 <;> simp
            [IN_PROGRESS_STATE, COMPLETED_STATE]
      · intro _
        rw [pyGet_pySet_self]
    · rw [valAt, valAt, pyGet_pySet_ne m _ he]
      exact ⟨le_refl _, fun h => h⟩

/-- The shared updater skeleton: skip when COMPLETED, else write IN_PROGRESS
and possibly COMPLETED; it is a monotone step at every composite key when
the event key itself is composite. -/
theorem MonoStep_guarded (c' : Bool) (m : ProgressMap) (key : String)
    (hk : determine_if_composite_entity key = true) :
    MonoStep m
      (if pyGet m key == some COMPLETED_STATE then m
        else if c' then
          pySet (pySet m key IN_PROGRESS_STATE) key COMPLETED_STATE
        else pySet m key IN_PROGRESS_STATE) := by
  by_cases h2 : pyGet m key = some COMPLETED_STATE
  · simp only [h2, beq_self_eq_true, if_true]
    exact MonoStep_refl m
  · have hb : (pyGet m key == some COMPLETED_STATE) = false := by
      simp [beq_eq_false_iff_ne, h2]
    rw [hb]
    simp only [Bool.false_eq_true, if_false]
    intro hinv
    have hv01 : valAt m key ≤ IN_PROGRESS_STATE := by
      rw [valAt]
      cases hg : pyGet m key with
      | none => simp [IN_PROGRESS_STATE]
      | some v =>
        rcases hinv key v hk hg with h1 | h1
        · simp [h1]
        · exact absurd (by rw [hg, h1]) h2
    cases c'
    · simp only [Bool.false_eq_true, if_false]
      constructor
      · intro k vv hkc hg
        by_cases he : k = key
        · subst he
          rw [pyGet_pySet_self] at hg
          left
          exact (Option.some_injective _ hg).symm
        · rw [pyGet_pySet_ne m _ he] at hg
          exact hinv k vv hkc hg
      · intro k hkc
        by_cases he : k = key
        · subst he
          constructor
          · simp only [valAt, pyGet_pySet_self, Option.getD_some]
            simpa [valAt] using hv01
          · intro h
            exact absurd h h2
        · rw [valAt, valAt, pyGet_pySet_ne m _ he]
          exact ⟨le_refl _, fun h => h⟩
    · simp only [if_true]
      constructor
      · intro k vv hkc hg
        by_cases he : k = key
        · subst he
          rw [pyGet_pySet_self] at hg
          right
          exact (Option.some_injective _ hg).symm
        · rw [pyGet_pySet_ne _ _ he, pyGet_pySet_ne m _ he] at hg
          exact hinv k vv hkc hg
      · intro k hkc
        by_cases he : k = key
        · subst he
          constructor
          · simp only [valAt, pyGet_pySet_self, Option.getD_some]
            exact le_trans (by simpa [valAt] using hv01)
              (by simp [IN_PROGRESS_STATE, COMPLETED_STATE])
          · intro h
            exact absurd h h2
        · rw [valAt, valAt, pyGet_pySet_ne _ _ he, pyGet_pySet_ne m _ he]
          exact ⟨le_refl _, fun h => h⟩

theorem MonoStep_update_unit (c : Course) (m : ProgressMap) (key : String)
    (hk : determine_if_composite_entity key = true) :
    MonoStep m (update_unit_m c m key) := by
  simp only [update_unit_m]
  exact MonoStep_guarded _ m key hk

theorem MonoStep_update_lesson (c : Course) (m : ProgressMap) (key : String)
    (hk : determine_if_composite_entity key = true) :
    MonoStep m (update_lesson_m c m key) := by
  simp only [update_lesson_m]
  exact MonoStep_guarded _ m key hk

theorem MonoStep_update_activity (c : Course) (m : ProgressMap)
    (key : String) (hk : determine_if_composite_entity key = true) :
    MonoStep m (update_activity_m c m key) := by
  simp only [update_activity_m]
  exact MonoStep_guarded _ m key hk

theorem MonoStep_update_html (c : Course) (m : ProgressMap) (key : String)
    (hk : determine_if_composite_entity key = true) :
    MonoStep m (update_html_m c m key) := by
  simp only [update_html_m]
  exact MonoStep_guarded _ m key hk

theorem MonoStep_ue_unit (c : Course) (m : ProgressMap) {u : String}
    (hu : noDot u) (du : Bool) :
    MonoStep m (update_event_m c m .unit (unit_key u) du) := by
  cases du
  · rw [update_event_m_unit_derived]
    exact MonoStep_update_unit c m _ (composite_unit_key hu)
  · rw [update_event_m_unit_direct]
    exact MonoStep_pySet2 m _ (composite_unit_key hu)

theorem MonoStep_ue_lesson (c : Course) (m : ProgressMap) {u l : String}
    (hu : noDot u) (hl : noDot l) (du : Bool) :
    MonoStep m (update_event_m c m .lesson (lesson_key u l) du) := by
  cases du
  · rw [update_event_m_lesson_derived, parent_of_lesson_key hu hl]
    exact MonoStep_trans
      (MonoStep_update_lesson c m _ (composite_lesson_key hu hl))
      (MonoStep_ue_unit c _ hu false)
  · rw [update_event_m_lesson_direct, parent_of_lesson_key hu hl]
    exact MonoStep_trans (MonoStep_pySet2 m _ (composite_lesson_key hu hl))
      (MonoStep_ue_unit c _ hu false)

theorem MonoStep_ue_activity (c : Course) (m : ProgressMap) {u l : String}
    (hu : noDot u) (hl : noDot l) (du : Bool) :
    MonoStep m (update_event_m c m .activity (activity_key u l) du) := by
  cases du
  · rw [update_event_m_activity_derived, parent_of_activity_key hu hl]
    exact MonoStep_trans
      (MonoStep_update_activity c m _ (composite_activity_key hu hl))
      (MonoStep_ue_lesson c _ hu hl false)
  · rw [update_event_m_activity_direct, parent_of_activity_key hu hl]
    exact MonoStep_trans (MonoStep_pySet2 m _ (composite_activity_key hu hl))
      (MonoStep_ue_lesson c _ hu hl false)

theorem MonoStep_ue_html (c : Course) (m : ProgressMap) {u l : String}
    (hu : noDot u) (hl : noDot l) (du : Bool) :
    MonoStep m (update_event_m c m .html (html_key u l) du) := by
  cases du
  · rw [update_event_m_html_derived, parent_of_html_key hu hl]
    exact MonoStep_trans
      (MonoStep_update_html c m _ (composite_html_key hu hl))
      (MonoStep_ue_lesson c _ hu hl false)
  · rw [update_event_m_html_direct, parent_of_html_key hu hl]
    exact MonoStep_trans (MonoStep_pySet2 m _ (composite_html_key hu hl))
      (MonoStep_ue_lesson c _ hu hl false)

theorem MonoStep_ue_block (c : Course) (m : ProgressMap) {u l b : String}
    (hu : noDot u) (hl : noDot l) (hb : noDot b) (du : Bool) :
    MonoStep m (update_event_m c m .block (block_key u l b) du) := by
  rw [update_event_m_block, parent_of_block_key hu hl hb]
  exact MonoStep_trans (MonoStep_pyInc m _ 1 (composite_block_key hu hl hb))
    (MonoStep_ue_activity c _ hu hl false)

theorem MonoStep_ue_component (c : Course) (m : ProgressMap)
    {u l cid : String} (hu : noDot u) (hl : noDot l) (hc : noDot cid)
    (du : Bool) :
    MonoStep m (update_event_m c m .component (component_key u l cid) du) := by
  rw [update_event_m_component, parent_of_component_key hu hl hc]
  exact MonoStep_trans
    (MonoStep_pyInc m _ 1 (composite_component_key hu hl hc))
    (MonoStep_ue_html c _ hu hl false)

theorem MonoStep_ue_assessment (c : Course) (m : ProgressMap) {a : String}
    (ha : noDot a) (du : Bool) :
    MonoStep m (update_event_m c m .assessment (assessment_key a) du) := by
  rw [update_event_m_assessment]
  exact MonoStep_pyInc m _ 1 (composite_assessment_key ha)

/-! ## The public record operations as an operation type -/

/-- One record operation of the tracker's public event-intake interface,
with the ids the caller passes. -/
inductive RecordOp
  | block (u l b : String)
  | component (u l cid : String)
  | assessment (a : String)
  | activity (u l : String)
  | html (u l : String)
deriving DecidableEq, Repr

/-- An operation is well formed when none of its ids contains the '.' key
separator (every id the course assigns in practice: integer unit, lesson and
block ids, alphanumeric component instance ids, assessment names). -/
def RecordOp.wf : RecordOp → Prop
  | .block u l b => noDot u ∧ noDot l ∧ noDot b
  | .component u l cid => noDot u ∧ noDot l ∧ noDot cid
  | .assessment a => noDot a
  | .activity u l => noDot u ∧ noDot l
  | .html u l => noDot u ∧ noDot l

instance (op : RecordOp) : Decidable op.wf := by
  cases op <;> simp only [RecordOp.wf] <;> infer_instance

/-- Apply one record operation to a decoded progress map. -/
def applyOp (c : Course) (st : Student) (m : ProgressMap) :
    RecordOp → ProgressMap
  | .block u l b => put_block_completed_m c st m u l b
  | .component u l cid => put_component_completed_m c st m u l cid
  | .assessment a => put_assessment_completed_m c st m a
  | .activity u l => put_activity_completed_m c st m u l
  | .html u l => put_html_completed_m c st m u l

/-- Apply a sequence of record operations from left to right. -/
def applyOps (c : Course) (st : Student) (m : ProgressMap)
    (ops : List RecordOp) : ProgressMap :=
  ops.foldl (applyOp c st) m

theorem MonoStep_applyOp (c : Course) (st : Student) (m : ProgressMap)
    {op : RecordOp} (hop : op.wf) : MonoStep m (applyOp c st m op) := by
  cases op with
  | block u l b =>
    obtain ⟨hu, hl, hb⟩ := hop
    simp only [applyOp, put_block_completed_m, put_event_m]
    split
    · exact MonoStep_refl m
    · split
      · exact MonoStep_refl m
      · split
        · exact MonoStep_refl m
        · exact MonoStep_ue_block c m hu hl hb true
  | component u l cid =>
    obtain ⟨hu, hl, hc⟩ := hop
    simp only [applyOp, put_component_completed_m, put_event_m]
    split
    · exact MonoStep_refl m
    · split
      · exact MonoStep_refl m
      · split
        · exact MonoStep_refl m
        · exact MonoStep_ue_component c m hu hl hc true
  | assessment a =>
    simp only [applyOp, put_assessment_completed_m, put_event_m]
    split
    · exact MonoStep_refl m
    · split
      · exact MonoStep_refl m
      · exact MonoStep_ue_assessment c m hop true
  | activity u l =>
    obtain ⟨hu, hl⟩ := hop
    simp only [applyOp, put_activity_completed_m, put_event_m]
    split
    · exact MonoStep_refl m
    · split
      · exact MonoStep_refl m
      · exact MonoStep_ue_activity c m hu hl true
  | html u l =>
    obtain ⟨hu, hl⟩ := hop
    simp only [applyOp, put_html_completed_m, put_event_m]
    split
    · exact MonoStep_refl m
    · split
      · exact MonoStep_refl m
      · exact MonoStep_ue_html c m hu hl true

theorem MonoStep_applyOps (c : Course) (st : Student) (m : ProgressMap)
    {ops : List RecordOp} (hops : ∀ op ∈ ops, op.wf) :
    MonoStep m (applyOps c st m ops) := by
  induction ops generalizing m with
  | nil => exact MonoStep_refl m
  | cons op rest ih =>
    have h1 : MonoStep m (applyOp c st m op) :=
      MonoStep_applyOp c st m (hops op (by simp))
    have h2 : MonoStep (applyOp c st m op)
        (applyOps c st (applyOp c st m op) rest) :=
      ih _ (fun o ho => hops o (by simp [ho]))
    exact MonoStep_trans h1 h2

/-! ## C1 and C9 -/

theorem applyOps_append (c : Course) (st : Student) (m : ProgressMap)
    (pre suf : List RecordOp) :
    applyOps c st m (pre ++ suf) = applyOps c st (applyOps c st m pre) suf :=
  List.foldl_append _ _ _ _

/-- C1: over any sequence of the five public record operations with
well-formed (dot-free) ids, starting from a record satisfying the
composite-range invariant, the value stored at any composite key is
non-decreasing from each prefix of the sequence to the whole sequence, and
once it is COMPLETED_STATE it stays COMPLETED_STATE. -/
theorem c1_composite_value_monotonic (c : Course) (st : Student)
    (m : ProgressMap) (ops : List RecordOp) (k : String)
    (hops : ∀ op ∈ ops, op.wf) (hinv : CompositeInv m)
    (hk : determine_if_composite_entity k = true) :
    ∀ pre suf, ops = pre ++ suf →
      valAt (applyOps c st m pre) k ≤ valAt (applyOps c st m ops) k
        ∧ (pyGet (applyOps c st m pre) k = some COMPLETED_STATE →
            pyGet (applyOps c st m ops) k = some COMPLETED_STATE) := by
  intro pre suf hsplit
  subst hsplit
  have hpre : ∀ op ∈ pre, op.wf := fun op ho => hops op (by simp [ho])
  have hsuf : ∀ op ∈ suf, op.wf := fun op ho => hops op (by simp [ho])
  have hinv1 : CompositeInv (applyOps c st m pre) :=
    (MonoStep_applyOps c st m hpre hinv).1
  have hstep := (MonoStep_applyOps c st (applyOps c st m pre) hsuf hinv1).2
  rw [applyOps_append]
  exact (hstep k hk)

/-- C9: after any single well-formed record operation on a record whose
composite keys all hold IN_PROGRESS or COMPLETED, every composite key
present in the result still holds IN_PROGRESS (1) or COMPLETED (2) — a
stored 0 never appears at a composite key; absence stands for
NOT_STARTED. -/
theorem c9_composite_range_preserved (c : Course) (st : Student)
    (m : ProgressMap) (op : RecordOp) (hop : op.wf)
    (hinv : CompositeInv m) :
    ∀ k v, determine_if_composite_entity k = true →
      pyGet (applyOp c st m op) k = some v →
      v = IN_PROGRESS_STATE ∨ v = COMPLETED_STATE :=
  (MonoStep_applyOp c st m hop hinv).1

/-! ## A small concrete course for the witnesses -/

/-- Witness course: unit "1" has lessons "1" (with an old-style activity)
and "2" (without); lesson "1" has the single valid block id "0" and the
single valid component id "c1"; "Pre" is the only assessment. -/
def demoCourse : Course where
  get_lessons := fun u =>
    if u == "1" then [⟨"1", true⟩, ⟨"2", false⟩] else []
  is_valid_unit_lesson_id := fun u l => u == "1" && (l == "1" || l == "2")
  is_valid_assessment_id := fun a => a == "Pre"
  get_valid_block_ids := fun u l => if u == "1" && l == "1" then ["0"] else []
  get_valid_component_ids := fun u l =>
    if u == "1" && l == "1" then ["c1"] else []

/-- The registered (non-transient) witness student. -/
def demoStudent : Student := ⟨false⟩

theorem CompositeInv_nil : CompositeInv ([] : ProgressMap) := by
  intro k v _ hg
  simp [pyGet] at hg

/-- Witness for C1: one valid block completion on the empty record; the
unit key "u.1" is composite and its value does not decrease. -/
theorem c1_composite_value_monotonic_witness :
    (∀ op ∈ [RecordOp.block "1" "1" "0"], op.wf)
    ∧ CompositeInv ([] : ProgressMap)
    ∧ determine_if_composite_entity "u.1" = true
    ∧ (valAt (applyOps demoCourse demoStudent [] []) "u.1"
          ≤ valAt (applyOps demoCourse demoStudent []
              [RecordOp.block "1" "1" "0"]) "u.1"
        ∧ (pyGet (applyOps demoCourse demoStudent [] []) "u.1"
              = some COMPLETED_STATE →
            pyGet (applyOps demoCourse demoStudent []
                [RecordOp.block "1" "1" "0"]) "u.1" = some COMPLETED_STATE)) :=
  ⟨by decide, CompositeInv_nil, by decide,
    c1_composite_value_monotonic demoCourse demoStudent []
      [RecordOp.block "1" "1" "0"] "u.1" (by decide) CompositeInv_nil
      (by decide) [] [RecordOp.block "1" "1" "0"] rfl⟩

/-- Witness for C9: the invariant holds after a valid block completion on
the empty record. -/
theorem c9_composite_range_preserved_witness :
    (RecordOp.block "1" "1" "0").wf
    ∧ CompositeInv ([] : ProgressMap)
    ∧ (∀ k v, determine_if_composite_entity k = true →
        pyGet (applyOp demoCourse demoStudent []
          (RecordOp.block "1" "1" "0")) k = some v →
        v = IN_PROGRESS_STATE ∨ v = COMPLETED_STATE) :=
  ⟨by decide, CompositeInv_nil,
    c9_composite_range_preserved demoCourse demoStudent []
      (RecordOp.block "1" "1" "0") (by decide) CompositeInv_nil⟩

/-! ## Key lengths and key inequalities -/

theorem unit_key_length (u : String) : (unit_key u).length = 2 + u.length := by
  have h : ("u." : String).length = 2 := rfl
  simp only [unit_key, String.length_append, h]

theorem lesson_key_length (u l : String) :
    (lesson_key u l).length = 5 + u.length + l.length := by
  have h : ("u." : String).length = 2 := rfl
  have h2 : (".l." : String).length = 3 := rfl
  simp only [lesson_key, String.length_append, h, h2]
  omega

theorem activity_key_length (u l : String) :
    (activity_key u l).length = 9 + u.length + l.length := by
  have h : ("u." : String).length = 2 := rfl
  have h2 : (".l." : String).length = 3 := rfl
  have h3 : (".a.0" : String).length = 4 := rfl
  simp only [activity_key, String.length_append, h, h2, h3]
  omega

theorem html_key_length (u l : String) :
    (html_key u l).length = 9 + u.length + l.length := by
  have h : ("u." : String).length = 2 := rfl
  have h2 : (".l." : String).length = 3 := rfl
  have h3 : (".h.0" : String).length = 4 := rfl
  simp only [html_key, String.length_append, h, h2, h3]
  omega

theorem block_key_length (u l b : String) :
    (block_key u l b).length = 12 + u.length + l.length + b.length := by
  have h : ("u." : String).length = 2 := rfl
  have h2 : (".l." : String).length = 3 := rfl
  have h3 : (".a.0.b." : String).length = 7 := rfl
  simp only [block_key, String.length_append, h, h2, h3]
  omega

theorem component_key_length (u l c : String) :
    (component_key u l c).length = 12 + u.length + l.length + c.length := by
  have h : ("u." : String).length = 2 := rfl
  have h2 : (".l." : String).length = 3 := rfl
  have h3 : (".h.0.c." : String).length = 7 := rfl
  simp only [component_key, String.length_append, h, h2, h3]
  omega

theorem lesson_key_ne_unit_key (u l : String) :
    lesson_key u l ≠ unit_key u := by
  intro h
  have hlen := congrArg String.length h
  rw [lesson_key_length, unit_key_length] at hlen
  omega

theorem activity_key_ne_unit_key (u l : String) :
    activity_key u l ≠ unit_key u := by
  intro h
  have hlen := congrArg String.length h
  rw [activity_key_length, unit_key_length] at hlen
  omega

theorem html_key_ne_unit_key (u l : String) :
    html_key u l ≠ unit_key u := by
  intro h
  have hlen := congrArg String.length h
  rw [html_key_length, unit_key_length] at hlen
  omega

theorem activity_key_ne_lesson_key (u l : String) :
    activity_key u l ≠ lesson_key u l := by
  intro h
  have hlen := congrArg String.length h
  rw [activity_key_length, lesson_key_length] at hlen
  omega

theorem html_key_ne_lesson_key (u l : String) :
    html_key u l ≠ lesson_key u l := by
  intro h
  have hlen := congrArg String.length h
  rw [html_key_length, lesson_key_length] at hlen
  omega

theorem block_key_ne_activity_key (u l b : String) :
    block_key u l b ≠ activity_key u l := by
  intro h
  have hlen := congrArg String.length h
  rw [block_key_length, activity_key_length] at hlen
  omega

theorem block_key_ne_html_key (u l b : String) :
    block_key u l b ≠ html_key u l := by
  intro h
  have hlen := congrArg String.length h
  rw [block_key_length, html_key_length] at hlen
  omega

theorem block_key_ne_lesson_key (u l b : String) :
    block_key u l b ≠ lesson_key u l := by
  intro h
  have hlen := congrArg String.length h
  rw [block_key_length, lesson_key_length] at hlen
  omega

theorem block_key_ne_unit_key (u l b : String) :
    block_key u l b ≠ unit_key u := by
  intro h
  have hlen := congrArg String.length h
  rw [block_key_length, unit_key_length] at hlen
  omega

/-! ## C2, C10, C8, C6 -/

/-- C2: recomputing a unit that is not yet COMPLETED, from a state in which
one of its lessons has lesson-status COMPLETED and another has not, leaves
the unit key at IN_PROGRESS — never COMPLETED. -/
theorem c2_unit_in_progress_until_all_lessons (c : Course) (m : ProgressMap)
    (u : String) (hu : noDot u) (l1 l2 : Lesson)
    (h1 : l1 ∈ c.get_lessons u) (h2 : l2 ∈ c.get_lessons u)
    (hc1 : get_lesson_status_m m u l1.lesson_id = some COMPLETED_STATE)
    (hne : pyGet m (unit_key u) ≠ some COMPLETED_STATE)
    (hc2 : get_lesson_status_m m u l2.lesson_id ≠ some COMPLETED_STATE) :
    pyGet (update_unit_m c m (unit_key u)) (unit_key u)
      = some IN_PROGRESS_STATE := by
  simp only [update_unit_m]
  have hguard : (pyGet m (unit_key u) == some COMPLETED_STATE) = false := by
    simp [hne]
  rw [hguard]
  have hid : ((pySplit (unit_key u))[1]?.getD "") = u := by
    rw [pySplit_unit_key hu]
    rfl
  rw [hid]
  have hall : ((c.get_lessons u).all fun le =>
      get_lesson_status_m (pySet m (unit_key u) IN_PROGRESS_STATE) u
          le.lesson_id == some COMPLETED_STATE) = false := by
    rw [List.all_eq_false]
    refine ⟨l2, h2, ?_⟩
    have hsame : get_lesson_status_m (pySet m (unit_key u) IN_PROGRESS_STATE)
        u l2.lesson_id = get_lesson_status_m m u l2.lesson_id := by
      unfold get_lesson_status_m
      exact pyGet_pySet_ne m _ (lesson_key_ne_unit_key u l2.lesson_id)
    rw [hsame]
    simp [hc2]
  rw [hall]
  simp only [Bool.false_eq_true, if_false]
  exact pyGet_pySet_self m (unit_key u) IN_PROGRESS_STATE

/-- Witness for C2: unit "1" of the demo course, lesson "1" completed,
lesson "2" not. -/
theorem c2_unit_in_progress_until_all_lessons_witness :
    (⟨"1", true⟩ : Lesson) ∈ demoCourse.get_lessons "1"
    ∧ (⟨"2", false⟩ : Lesson) ∈ demoCourse.get_lessons "1"
    ∧ get_lesson_status_m [("u.1.l.1", 2)] "1" "1" = some COMPLETED_STATE
    ∧ pyGet [("u.1.l.1", 2)] (unit_key "1") ≠ some COMPLETED_STATE
    ∧ get_lesson_status_m [("u.1.l.1", 2)] "1" "2" ≠ some COMPLETED_STATE
    ∧ pyGet (update_unit_m demoCourse [("u.1.l.1", 2)] (unit_key "1"))
        (unit_key "1") = some IN_PROGRESS_STATE :=
  ⟨by decide, by decide, by decide, by decide, by decide,
    c2_unit_in_progress_until_all_lessons demoCourse [("u.1.l.1", 2)] "1"
      (by decide) ⟨"1", true⟩ ⟨"2", false⟩ (by decide) (by decide)
      (by decide) (by decide) (by decide)⟩

/-- C10: running _update_lesson on a not-yet-COMPLETED lesson key whose
lesson_id token matches no lesson of get_lessons(unit_id) passes the child
loop vacuously and marks the lesson COMPLETED. -/
theorem c10_unmatched_lesson_marked_completed (c : Course) (m : ProgressMap)
    (u l : String) (hu : noDot u) (hl : noDot l)
    (hne : pyGet m (lesson_key u l) ≠ some COMPLETED_STATE)
    (hmiss : ∀ le ∈ c.get_lessons u, le.lesson_id ≠ l) :
    pyGet (update_lesson_m c m (lesson_key u l)) (lesson_key u l)
      = some COMPLETED_STATE := by
  simp only [update_lesson_m]
  have hguard : (pyGet m (lesson_key u l) == some COMPLETED_STATE)
      = false := by
    simp [hne]
  rw [hguard]
  simp only [Bool.false_eq_true, if_false]
  have hid1 : ((pySplit (lesson_key u l))[1]?.getD "") = u := by
    rw [pySplit_lesson_key hu hl]
    rfl
  have hid3 : ((pySplit (lesson_key u l))[3]?.getD "") = l := by
    rw [pySplit_lesson_key hu hl]
    rfl
  rw [hid1, hid3]
  have hall : ((c.get_lessons u).all fun le =>
      if le.lesson_id = l then
        (!le.activity
          || get_activity_status_m
              (pySet m (lesson_key u l) IN_PROGRESS_STATE) u l
                == some COMPLETED_STATE)
        && (get_html_status_m (pySet m (lesson_key u l) IN_PROGRESS_STATE)
              u l == some COMPLETED_STATE)
      else true) = true := by
    rw [List.all_eq_true]
    intro le hle
    simp [hmiss le hle]
  rw [hall]
  simp only [if_true]
  exact pyGet_pySet_self (pySet m (lesson_key u l) IN_PROGRESS_STATE)
    (lesson_key u l) COMPLETED_STATE

/-- Witness for C10: lesson key 'u.1.l.3' while unit "1" only has lessons
"1" and "2". -/
theorem c10_unmatched_lesson_marked_completed_witness :
    pyGet ([] : ProgressMap) (lesson_key "1" "3") ≠ some COMPLETED_STATE
    ∧ (∀ le ∈ demoCourse.get_lessons "1", le.lesson_id ≠ "3")
    ∧ pyGet (update_lesson_m demoCourse [] (lesson_key "1" "3"))
        (lesson_key "1" "3") = some COMPLETED_STATE :=
  ⟨by decide, by decide,
    c10_unmatched_lesson_marked_completed demoCourse [] "1" "3" (by decide)
      (by decide) (by decide) (by decide)⟩

/-- C8: put_assessment_completed for a valid assessment id and
non-transient student increments exactly the key 's.<assessment_id>' and
leaves every other key unchanged (the assessment entity has no derived
parent, so no cascade runs). -/
theorem c8_assessment_increments_single_key (c : Course) (st : Student)
    (m : ProgressMap) (a : String)
    (hv : c.is_valid_assessment_id a = true)
    (ht : st.is_transient = false) :
    pyGet (put_assessment_completed_m c st m a) (assessment_key a)
        = some ((pyGet m (assessment_key a)).getD 0 + 1)
      ∧ ∀ k, k ≠ assessment_key a →
          pyGet (put_assessment_completed_m c st m a) k = pyGet m k := by
  simp only [put_assessment_completed_m, hv, Bool.not_true,
    Bool.false_eq_true, if_false, put_event_m, ht, update_event_m_assessment]
  exact ⟨pyGet_pyInc_self m _ 1, fun k hk => pyGet_pyInc_ne m 1 hk⟩

/-- Witness for C8: assessment "Pre" on the empty record. -/
theorem c8_assessment_increments_single_key_witness :
    demoCourse.is_valid_assessment_id "Pre" = true
    ∧ demoStudent.is_transient = false
    ∧ (pyGet (put_assessment_completed_m demoCourse demoStudent [] "Pre")
          (assessment_key "Pre")
          = some ((pyGet ([] : ProgressMap) (assessment_key "Pre")).getD 0 + 1)
        ∧ ∀ k, k ≠ assessment_key "Pre" →
            pyGet (put_assessment_completed_m demoCourse demoStudent [] "Pre")
              k = pyGet ([] : ProgressMap) k) :=
  ⟨by decide, by decide,
    c8_assessment_increments_single_key demoCourse demoStudent [] "Pre"
      (by decide) (by decide)⟩

/-- C6: a direct activity or html event writes COMPLETED at the entity's
key unconditionally — no children recomputation — before cascading to the
parent lesson; and the zero-children accessed paths reduce to the direct
completed paths. -/
theorem c6_direct_marks_force_completed (c : Course) (st : Student)
    (m : ProgressMap) (key u l : String)
    (hza : c.get_valid_block_ids u l = [])
    (hzc : c.get_valid_component_ids u l = []) :
    update_event_m c m .activity key true
        = update_event_m c (pySet m key COMPLETED_STATE) .lesson
            (generate_parent_id key) false
      ∧ update_event_m c m .html key true
          = update_event_m c (pySet m key COMPLETED_STATE) .lesson
              (generate_parent_id key) false
      ∧ put_activity_accessed_m c st m u l = put_activity_completed_m c st m u l
      ∧ put_html_accessed_m c st m u l = put_html_completed_m c st m u l :=
  ⟨update_event_m_activity_direct c m key, update_event_m_html_direct c m key,
    by simp [put_activity_accessed_m, hza],
    by simp [put_html_accessed_m, hzc]⟩

/-- Witness for C6: unit "1", lesson "2" of the demo course (no blocks, no
components). -/
theorem c6_direct_marks_force_completed_witness :
    demoCourse.get_valid_block_ids "1" "2" = []
    ∧ demoCourse.get_valid_component_ids "1" "2" = []
    ∧ (update_event_m demoCourse [] .activity "u.1.l.2.a.0" true
        = update_event_m demoCourse
            (pySet [] "u.1.l.2.a.0" COMPLETED_STATE) .lesson
            (generate_parent_id "u.1.l.2.a.0") false
      ∧ update_event_m demoCourse [] .html "u.1.l.2.a.0" true
          = update_event_m demoCourse
              (pySet [] "u.1.l.2.a.0" COMPLETED_STATE) .lesson
              (generate_parent_id "u.1.l.2.a.0") false
      ∧ put_activity_accessed_m demoCourse demoStudent [] "1" "2"
          = put_activity_completed_m demoCourse demoStudent [] "1" "2"
      ∧ put_html_accessed_m demoCourse demoStudent [] "1" "2"
          = put_html_completed_m demoCourse demoStudent [] "1" "2") :=
  ⟨by decide, by decide,
    c6_direct_marks_force_completed demoCourse demoStudent []
      "u.1.l.2.a.0" "1" "2" (by decide) (by decide)⟩

/-! ## Further key facts for the idempotence analysis -/

theorem append_right_inj (p : String) {x y : String} (h : p ++ x = p ++ y) :
    x = y := by
  have hd := congrArg String.data h
  rw [String.data_append, String.data_append] at hd
  exact string_ext (List.append_cancel_left hd)

theorem block_key_right_inj (u l : String) {x y : String}
    (h : block_key u l x = block_key u l y) : x = y :=
  append_right_inj ("u." ++ u ++ ".l." ++ l ++ ".a.0.b.") h

theorem lesson_key_right_inj (u : String) {x y : String}
    (h : lesson_key u x = lesson_key u y) : x = y :=
  append_right_inj ("u." ++ u ++ ".l.") h

theorem html_key_ne_activity_key {u l u' l' : String} (hu : noDot u)
    (hl : noDot l) (hu' : noDot u') (hl' : noDot l') :
    html_key u l ≠ activity_key u' l' := by
  intro h
  have hs := congrArg pySplit h
  rw [pySplit_html_key hu hl, pySplit_activity_key hu' hl'] at hs
  simp at hs

theorem lesson_key_ne_activity_key {u x u' l' : String} (hu : noDot u)
    (hx : noDot x) (hu' : noDot u') (hl' : noDot l') :
    lesson_key u x ≠ activity_key u' l' := by
  intro h
  have hs := congrArg pySplit h
  rw [pySplit_lesson_key hu hx, pySplit_activity_key hu' hl'] at hs
  have hlen := congrArg List.length hs
  simp at hlen

theorem lesson_key_ne_block_key {u x u' l' b' : String} (hu : noDot u)
    (hx : noDot x) (hu' : noDot u') (hl' : noDot l') (hb' : noDot b') :
    lesson_key u x ≠ block_key u' l' b' := by
  intro h
  have hs := congrArg pySplit h
  rw [pySplit_lesson_key hu hx, pySplit_block_key hu' hl' hb'] at hs
  have hlen := congrArg List.length hs
  simp at hlen

theorem list_all_congr {α : Type} {l : List α} {f g : α → Bool}
    (h : ∀ x ∈ l, f x = g x) : l.all f = l.all g := by
  induction l with
  | nil => rfl
  | cons a t ih =>
    simp only [List.all_cons, h a (by simp),
      ih (fun x hx => h x (by simp [hx]))]

/-! ## The value an updater writes at its own key -/

/-- The state an updater leaves at its event key, as a function of the old
value and the children-complete condition. -/
def stepVal (cond : Bool) (x : Option Nat) : Option Nat :=
  if x == some COMPLETED_STATE then some COMPLETED_STATE
  else if cond then some COMPLETED_STATE else some IN_PROGRESS_STATE

theorem stepVal_idem (cond : Bool) (x : Option Nat) :
    stepVal cond (stepVal cond x) = stepVal cond x := by
  unfold stepVal
  cases cond <;> split <;> simp [IN_PROGRESS_STATE, COMPLETED_STATE]

theorem guarded_self (m : ProgressMap) (key : String) (cond : Bool) :
    pyGet (if pyGet m key == some COMPLETED_STATE then m
      else if cond then
        pySet (pySet m key IN_PROGRESS_STATE) key COMPLETED_STATE
      else pySet m key IN_PROGRESS_STATE) key
      = stepVal cond (pyGet m key) := by
  unfold stepVal
  by_cases h : pyGet m key = some COMPLETED_STATE
  · simp [h]
  · have hb : (pyGet m key == some COMPLETED_STATE) = false := by simp [h]
    rw [hb]
    cases cond <;> simp [pyGet_pySet_self]

theorem guarded_frame (m : ProgressMap) (key : String) (cond : Bool)
    {k : String} (hk : k ≠ key) :
    pyGet (if pyGet m key == some COMPLETED_STATE then m
      else if cond then
        pySet (pySet m key IN_PROGRESS_STATE) key COMPLETED_STATE
      else pySet m key IN_PROGRESS_STATE) k = pyGet m k := by
  by_cases h : pyGet m key == some COMPLETED_STATE <;>
    cases cond <;>
      simp [h, pyGet_pySet_ne _ _ hk]

theorem update_unit_m_frame (c : Course) (x : ProgressMap) (key : String)
    {k : String} (hk : k ≠ key) :
    pyGet (update_unit_m c x key) k = pyGet x k := by
  simp only [update_unit_m]
  exact guarded_frame x key _ hk

theorem update_lesson_m_frame (c : Course) (x : ProgressMap) (key : String)
    {k : String} (hk : k ≠ key) :
    pyGet (update_lesson_m c x key) k = pyGet x k := by
  simp only [update_lesson_m]
  exact guarded_frame x key _ hk

theorem update_activity_m_frame (c : Course) (x : ProgressMap) (key : String)
    {k : String} (hk : k ≠ key) :
    pyGet (update_activity_m c x key) k = pyGet x k := by
  simp only [update_activity_m]
  exact guarded_frame x key _ hk

theorem update_html_m_frame (c : Course) (x : ProgressMap) (key : String)
    {k : String} (hk : k ≠ key) :
    pyGet (update_html_m c x key) k = pyGet x k := by
  simp only [update_html_m]
  exact guarded_frame x key _ hk

theorem update_activity_m_self (c : Course) (x : ProgressMap) {u l : String}
    (hu : noDot u) (hl : noDot l) :
    pyGet (update_activity_m c x (activity_key u l)) (activity_key u l)
      = stepVal ((c.get_valid_block_ids u l).all fun bid =>
          is_block_completed_m x u l bid) (pyGet x (activity_key u l)) := by
  simp only [update_activity_m]
  have hid1 : ((pySplit (activity_key u l))[1]?.getD "") = u := by
    rw [pySplit_activity_key hu hl]
    rfl
  have hid3 : ((pySplit (activity_key u l))[3]?.getD "") = l := by
    rw [pySplit_activity_key hu hl]
    rfl
  rw [hid1, hid3]
  have hcond : ((c.get_valid_block_ids u l).all fun bid =>
      is_block_completed_m (pySet x (activity_key u l) IN_PROGRESS_STATE)
        u l bid)
      = ((c.get_valid_block_ids u l).all fun bid =>
          is_block_completed_m x u l bid) := by
    refine list_all_congr fun bid _ => ?_
    unfold is_block_completed_m
    rw [pyGet_pySet_ne x _ (block_key_ne_activity_key u l bid)]
  rw [hcond]
  exact guarded_self x (activity_key u l) _

theorem update_lesson_m_self (c : Course) (x : ProgressMap) {u l : String}
    (hu : noDot u) (hl : noDot l) :
    pyGet (update_lesson_m c x (lesson_key u l)) (lesson_key u l)
      = stepVal ((c.get_lessons u).all fun le =>
          if le.lesson_id = l then
            (!le.activity
              || get_activity_status_m x u l == some COMPLETED_STATE)
            && (get_html_status_m x u l == some COMPLETED_STATE)
          else true) (pyGet x (lesson_key u l)) := by
  simp only [update_lesson_m]
  have hid1 : ((pySplit (lesson_key u l))[1]?.getD "") = u := by
    rw [pySplit_lesson_key hu hl]
    rfl
  have hid3 : ((pySplit (lesson_key u l))[3]?.getD "") = l := by
    rw [pySplit_lesson_key hu hl]
    rfl
  rw [hid1, hid3]
  have hcond : ((c.get_lessons u).all fun le =>
      if le.lesson_id = l then
        (!le.activity
          || get_activity_status_m
              (pySet x (lesson_key u l) IN_PROGRESS_STATE) u l
              == some COMPLETED_STATE)
        && (get_html_status_m (pySet x (lesson_key u l) IN_PROGRESS_STATE)
              u l == some COMPLETED_STATE)
      else true)
      = ((c.get_lessons u).all fun le =>
          if le.lesson_id = l then
            (!le.activity
              || get_activity_status_m x u l == some COMPLETED_STATE)
            && (get_html_status_m x u l == some COMPLETED_STATE)
          else true) := by
    refine list_all_congr fun le _ => ?_
    unfold get_activity_status_m get_html_status_m
    rw [pyGet_pySet_ne x _ (activity_key_ne_lesson_key u l),
      pyGet_pySet_ne x _ (html_key_ne_lesson_key u l)]
  rw [hcond]
  exact guarded_self x (lesson_key u l) _

theorem update_unit_m_self (c : Course) (x : ProgressMap) {u : String}
    (hu : noDot u) :
    pyGet (update_unit_m c x (unit_key u)) (unit_key u)
      = stepVal ((c.get_lessons u).all fun le =>
          get_lesson_status_m x u le.lesson_id == some COMPLETED_STATE)
        (pyGet x (unit_key u)) := by
  simp only [update_unit_m]
  have hid1 : ((pySplit (unit_key u))[1]?.getD "") = u := by
    rw [pySplit_unit_key hu]
    rfl
  rw [hid1]
  have hcond : ((c.get_lessons u).all fun le =>
      get_lesson_status_m (pySet x (unit_key u) IN_PROGRESS_STATE) u
          le.lesson_id == some COMPLETED_STATE)
      = ((c.get_lessons u).all fun le =>
          get_lesson_status_m x u le.lesson_id == some COMPLETED_STATE) := by
    refine list_all_congr fun le _ => ?_
    unfold get_lesson_status_m
    rw [pyGet_pySet_ne x _ (lesson_key_ne_unit_key u le.lesson_id)]
  rw [hcond]
  exact guarded_self x (unit_key u) _

/-! ## The block-event cascade, stage by stage -/

/-- The children-complete condition of _update_activity. -/
def blocksDone (c : Course) (x : ProgressMap) (u l : String) : Bool :=
  (c.get_valid_block_ids u l).all fun bid => is_block_completed_m x u l bid

/-- The children-complete condition of _update_lesson. -/
def lessonChildrenDone (c : Course) (x : ProgressMap) (u l : String) :
    Bool :=
  (c.get_lessons u).all fun le =>
    if le.lesson_id = l then
      (!le.activity || get_activity_status_m x u l == some COMPLETED_STATE)
      && (get_html_status_m x u l == some COMPLETED_STATE)
    else true

/-- The children-complete condition of _update_unit. -/
def lessonsDone (c : Course) (x : ProgressMap) (u : String) : Bool :=
  (c.get_lessons u).all fun le =>
    get_lesson_status_m x u le.lesson_id == some COMPLETED_STATE

/-- After the block counter increment, the first cascade stage: the
activity updater. -/
def blockCascadeA (c : Course) (x : ProgressMap) (u l b : String) :
    ProgressMap :=
  update_activity_m c (pyInc x (block_key u l b) 1) (activity_key u l)

/-- Second cascade stage: the lesson updater. -/
def blockCascadeL (c : Course) (x : ProgressMap) (u l b : String) :
    ProgressMap :=
  update_lesson_m c (blockCascadeA c x u l b) (lesson_key u l)

/-- Final cascade stage: the unit updater; this is the whole effect of a
validated block event. -/
def blockCascade (c : Course) (x : ProgressMap) (u l b : String) :
    ProgressMap :=
  update_unit_m c (blockCascadeL c x u l b) (unit_key u)

theorem put_block_eq_blockCascade (c : Course) (st : Student)
    (x : ProgressMap) {u l b : String} (hu : noDot u) (hl : noDot l)
    (hb : noDot b) (hv : c.is_valid_unit_lesson_id u l = true)
    (hcb : (c.get_valid_block_ids u l).contains b = true)
    (ht : st.is_transient = false) :
    put_block_completed_m c st x u l b = blockCascade c x u l b := by
  simp only [put_block_completed_m, hv, hcb, Bool.not_true,
    Bool.false_eq_true, if_false, put_event_m, ht, update_event_m_block,
    parent_of_block_key hu hl hb, update_event_m_activity_derived,
    parent_of_activity_key hu hl, update_event_m_lesson_derived,
    parent_of_lesson_key hu hl, update_event_m_unit_derived, blockCascade,
    blockCascadeL, blockCascadeA]

theorem blockCascade_block (c : Course) (x : ProgressMap) {u l b : String} :
    pyGet (blockCascade c x u l b) (block_key u l b)
      = some ((pyGet x (block_key u l b)).getD 0 + 1) := by
  unfold blockCascade blockCascadeL blockCascadeA
  rw [update_unit_m_frame c _ _ (block_key_ne_unit_key u l b),
    update_lesson_m_frame c _ _ (block_key_ne_lesson_key u l b),
    update_activity_m_frame c _ _ (block_key_ne_activity_key u l b),
    pyGet_pyInc_self]

theorem blockCascade_frame (c : Course) (x : ProgressMap) {u l b : String}
    {k : String} (h1 : k ≠ block_key u l b) (h2 : k ≠ activity_key u l)
    (h3 : k ≠ lesson_key u l) (h4 : k ≠ unit_key u) :
    pyGet (blockCascade c x u l b) k = pyGet x k := by
  unfold blockCascade blockCascadeL blockCascadeA
  rw [update_unit_m_frame c _ _ h4, update_lesson_m_frame c _ _ h3,
    update_activity_m_frame c _ _ h2, pyGet_pyInc_ne x 1 h1]

theorem blockCascade_activity (c : Course) (x : ProgressMap)
    {u l b : String} (hu : noDot u) (hl : noDot l) :
    pyGet (blockCascade c x u l b) (activity_key u l)
      = stepVal (blocksDone c (pyInc x (block_key u l b) 1) u l)
          (pyGet x (activity_key u l)) := by
  unfold blockCascade blockCascadeL blockCascadeA
  rw [update_unit_m_frame c _ _ (activity_key_ne_unit_key u l),
    update_lesson_m_frame c _ _ (activity_key_ne_lesson_key u l),
    update_activity_m_self c _ hu hl,
    pyGet_pyInc_ne x 1 (Ne.symm (block_key_ne_activity_key u l b))]
  rfl

theorem blockCascade_lesson (c : Course) (x : ProgressMap) {u l b : String}
    (hu : noDot u) (hl : noDot l) :
    pyGet (blockCascade c x u l b) (lesson_key u l)
      = stepVal (lessonChildrenDone c (blockCascadeA c x u l b) u l)
          (pyGet x (lesson_key u l)) := by
  unfold blockCascade blockCascadeL
  rw [update_unit_m_frame c _ _ (lesson_key_ne_unit_key u l),
    update_lesson_m_self c _ hu hl]
  unfold blockCascadeA
  rw [update_activity_m_frame c _ _
      (Ne.symm (activity_key_ne_lesson_key u l)),
    pyGet_pyInc_ne x 1 (Ne.symm (block_key_ne_lesson_key u l b))]
  rfl

theorem blockCascade_unit (c : Course) (x : ProgressMap) {u l b : String}
    (hu : noDot u) (hl : noDot l) :
    pyGet (blockCascade c x u l b) (unit_key u)
      = stepVal (lessonsDone c (blockCascadeL c x u l b) u)
          (pyGet x (unit_key u)) := by
  unfold blockCascade
  rw [update_unit_m_self c _ hu]
  unfold blockCascadeL blockCascadeA
  rw [update_lesson_m_frame c _ _ (Ne.symm (lesson_key_ne_unit_key u l)),
    update_activity_m_frame c _ _ (Ne.symm (activity_key_ne_unit_key u l)),
    pyGet_pyInc_ne x 1 (Ne.symm (block_key_ne_unit_key u l b))]
  rfl

theorem blockCascadeA_activity (c : Course) (x : ProgressMap)
    {u l b : String} (hu : noDot u) (hl : noDot l) :
    pyGet (blockCascadeA c x u l b) (activity_key u l)
      = stepVal (blocksDone c (pyInc x (block_key u l b) 1) u l)
          (pyGet x (activity_key u l)) := by
  unfold blockCascadeA
  rw [update_activity_m_self c _ hu hl,
    pyGet_pyInc_ne x 1 (Ne.symm (block_key_ne_activity_key u l b))]
  rfl

theorem blockCascadeA_html (c : Course) (x : ProgressMap) {u l b : String}
    (hu : noDot u) (hl : noDot l) :
    pyGet (blockCascadeA c x u l b) (html_key u l)
      = pyGet x (html_key u l) := by
  unfold blockCascadeA
  rw [update_activity_m_frame c _ _ (html_key_ne_activity_key hu hl hu hl),
    pyGet_pyInc_ne x 1 (Ne.symm (block_key_ne_html_key u l b))]

theorem blockCascadeA_lesson (c : Course) (x : ProgressMap)
    {u l b : String} :
    pyGet (blockCascadeA c x u l b) (lesson_key u l)
      = pyGet x (lesson_key u l) := by
  unfold blockCascadeA
  rw [update_activity_m_frame c _ _
      (Ne.symm (activity_key_ne_lesson_key u l)),
    pyGet_pyInc_ne x 1 (Ne.symm (block_key_ne_lesson_key u l b))]

theorem blockCascadeL_frame (c : Course) (x : ProgressMap)
    {u l b k : String} (h1 : k ≠ block_key u l b)
    (h2 : k ≠ activity_key u l) (h3 : k ≠ lesson_key u l) :
    pyGet (blockCascadeL c x u l b) k = pyGet x k := by
  unfold blockCascadeL blockCascadeA
  rw [update_lesson_m_frame c _ _ h3, update_activity_m_frame c _ _ h2,
    pyGet_pyInc_ne x 1 h1]

theorem blockCascadeL_lesson (c : Course) (x : ProgressMap)
    {u l b : String} (hu : noDot u) (hl : noDot l) :
    pyGet (blockCascadeL c x u l b) (lesson_key u l)
      = stepVal (lessonChildrenDone c (blockCascadeA c x u l b) u l)
          (pyGet x (lesson_key u l)) := by
  unfold blockCascadeL
  rw [update_lesson_m_self c _ hu hl, blockCascadeA_lesson]
  rfl

/-- Re-incrementing the same block does not change whether each valid block
of the activity is completed. -/
theorem blocksDone_second (c : Course) (x : ProgressMap) {u l b : String} :
    blocksDone c (pyInc (blockCascade c x u l b) (block_key u l b) 1) u l
      = blocksDone c (pyInc x (block_key u l b) 1) u l := by
  unfold blocksDone
  refine list_all_congr fun bid _ => ?_
  unfold is_block_completed_m
  by_cases heq : block_key u l bid = block_key u l b
  · rw [heq, pyGet_pyInc_self, pyGet_pyInc_self, blockCascade_block]
    simp
  · rw [pyGet_pyInc_ne _ 1 heq, pyGet_pyInc_ne x 1 heq,
      blockCascade_frame c x heq (block_key_ne_activity_key u l bid)
        (block_key_ne_lesson_key u l bid) (block_key_ne_unit_key u l bid)]

/-- The activity value after the second block event equals the one after
the first. -/
theorem actVal_second (c : Course) (m : ProgressMap) {u l b : String}
    (hu : noDot u) (hl : noDot l) :
    pyGet (blockCascadeA c (blockCascade c m u l b) u l b)
        (activity_key u l)
      = pyGet (blockCascadeA c m u l b) (activity_key u l) := by
  rw [blockCascadeA_activity c _ hu hl, blocksDone_second,
    blockCascade_activity c m hu hl, stepVal_idem,
    blockCascadeA_activity c m hu hl]

/-- The html value is untouched by block cascades. -/
theorem htmlVal_second (c : Course) (m : ProgressMap) {u l b : String}
    (hu : noDot u) (hl : noDot l) :
    pyGet (blockCascadeA c (blockCascade c m u l b) u l b) (html_key u l)
      = pyGet (blockCascadeA c m u l b) (html_key u l) := by
  rw [blockCascadeA_html c _ hu hl, blockCascadeA_html c m hu hl,
    blockCascade_frame c m (Ne.symm (block_key_ne_html_key u l b))
      (html_key_ne_activity_key hu hl hu hl) (html_key_ne_lesson_key u l)
      (html_key_ne_unit_key u l)]

theorem lessonChildrenDone_second (c : Course) (m : ProgressMap)
    {u l b : String} (hu : noDot u) (hl : noDot l) :
    lessonChildrenDone c (blockCascadeA c (blockCascade c m u l b) u l b)
        u l
      = lessonChildrenDone c (blockCascadeA c m u l b) u l := by
  unfold lessonChildrenDone
  refine list_all_congr fun le _ => ?_
  simp only [get_activity_status_m, get_html_status_m]
  rw [actVal_second c m hu hl, htmlVal_second c m hu hl]

/-- The lesson value after the second block event equals the one after the
first. -/
theorem lessonVal_second (c : Course) (m : ProgressMap) {u l b : String}
    (hu : noDot u) (hl : noDot l) :
    pyGet (blockCascadeL c (blockCascade c m u l b) u l b) (lesson_key u l)
      = pyGet (blockCascadeL c m u l b) (lesson_key u l) := by
  rw [blockCascadeL_lesson c _ hu hl, lessonChildrenDone_second c m hu hl,
    blockCascade_lesson c m hu hl, stepVal_idem,
    blockCascadeL_lesson c m hu hl]

theorem lessonsDone_second (c : Course) (m : ProgressMap) {u l b : String}
    (hu : noDot u) (hl : noDot l) (hb : noDot b)
    (hlessons : ∀ le ∈ c.get_lessons u, noDot le.lesson_id) :
    lessonsDone c (blockCascadeL c (blockCascade c m u l b) u l b) u
      = lessonsDone c (blockCascadeL c m u l b) u := by
  unfold lessonsDone
  refine list_all_congr fun le hle => ?_
  have hnd := hlessons le hle
  simp only [get_lesson_status_m]
  by_cases hid : le.lesson_id = l
  · rw [hid, lessonVal_second c m hu hl]
  · have h1 : lesson_key u le.lesson_id ≠ lesson_key u l := fun hh =>
      hid (lesson_key_right_inj u hh)
    have h2 : lesson_key u le.lesson_id ≠ activity_key u l :=
      lesson_key_ne_activity_key hu hnd hu hl
    have h3 : lesson_key u le.lesson_id ≠ block_key u l b :=
      lesson_key_ne_block_key hu hnd hu hl hb
    have h4 : lesson_key u le.lesson_id ≠ unit_key u :=
      lesson_key_ne_unit_key u le.lesson_id
    rw [blockCascadeL_frame c _ h3 h2 h1]
    unfold blockCascade
    rw [update_unit_m_frame c _ _ h4]

/-- C7: a second identical valid block event adds 1 to the block counter
again (each call initializes an absent counter to 0 first, then adds 1),
and every ancestor composite key — activity, lesson and unit — holds the
identical value after the second event as after the first. -/
theorem c7_repeat_block_event_idempotent_above (c : Course) (st : Student)
    (m : ProgressMap) (u l b : String) (hu : noDot u) (hl : noDot l)
    (hb : noDot b) (hlessons : ∀ le ∈ c.get_lessons u, noDot le.lesson_id)
    (hv : c.is_valid_unit_lesson_id u l = true)
    (hcb : (c.get_valid_block_ids u l).contains b = true)
    (ht : st.is_transient = false) :
    pyGet (put_block_completed_m c st m u l b) (block_key u l b)
        = some ((pyGet m (block_key u l b)).getD 0 + 1)
    ∧ pyGet (put_block_completed_m c st (put_block_completed_m c st m u l b)
          u l b) (block_key u l b)
        = some ((pyGet m (block_key u l b)).getD 0 + 2)
    ∧ pyGet (put_block_completed_m c st (put_block_completed_m c st m u l b)
          u l b) (activity_key u l)
        = pyGet (put_block_completed_m c st m u l b) (activity_key u l)
    ∧ pyGet (put_block_completed_m c st (put_block_completed_m c st m u l b)
          u l b) (lesson_key u l)
        = pyGet (put_block_completed_m c st m u l b) (lesson_key u l)
    ∧ pyGet (put_block_completed_m c st (put_block_completed_m c st m u l b)
          u l b) (unit_key u)
        = pyGet (put_block_completed_m c st m u l b) (unit_key u) := by
  have hput : ∀ x : ProgressMap,
      put_block_completed_m c st x u l b = blockCascade c x u l b :=
    fun x => put_block_eq_blockCascade c st x hu hl hb hv hcb ht
  rw [hput m, hput (blockCascade c m u l b)]
  refine ⟨blockCascade_block c m, ?_, ?_, ?_, ?_⟩
  · rw [blockCascade_block c _, blockCascade_block c m]
    simp
  · rw [blockCascade_activity c _ hu hl, blocksDone_second,
      blockCascade_activity c m hu hl, stepVal_idem]
  · rw [blockCascade_lesson c _ hu hl, lessonChildrenDone_second c m hu hl,
      blockCascade_lesson c m hu hl, stepVal_idem]
  · rw [blockCascade_unit c _ hu hl,
      lessonsDone_second c m hu hl hb hlessons,
      blockCascade_unit c m hu hl, stepVal_idem]

/-- Witness for C7: block "0" of unit "1" lesson "1" recorded twice from
the empty record. -/
theorem c7_repeat_block_event_idempotent_above_witness :
    (∀ le ∈ demoCourse.get_lessons "1", noDot le.lesson_id)
    ∧ demoCourse.is_valid_unit_lesson_id "1" "1" = true
    ∧ (demoCourse.get_valid_block_ids "1" "1").contains "0" = true
    ∧ (pyGet (put_block_completed_m demoCourse demoStudent [] "1" "1" "0")
          (block_key "1" "1" "0")
        = some ((pyGet ([] : ProgressMap) (block_key "1" "1" "0")).getD 0
            + 1)
      ∧ pyGet (put_block_completed_m demoCourse demoStudent
            (put_block_completed_m demoCourse demoStudent [] "1" "1" "0")
            "1" "1" "0") (block_key "1" "1" "0")
          = some ((pyGet ([] : ProgressMap) (block_key "1" "1" "0")).getD 0
              + 2)
      ∧ pyGet (put_block_completed_m demoCourse demoStudent
            (put_block_completed_m demoCourse demoStudent [] "1" "1" "0")
            "1" "1" "0") (activity_key "1" "1")
          = pyGet (put_block_completed_m demoCourse demoStudent [] "1" "1"
              "0") (activity_key "1" "1")
      ∧ pyGet (put_block_completed_m demoCourse demoStudent
            (put_block_completed_m demoCourse demoStudent [] "1" "1" "0")
            "1" "1" "0") (lesson_key "1" "1")
          = pyGet (put_block_completed_m demoCourse demoStudent [] "1" "1"
              "0") (lesson_key "1" "1")
      ∧ pyGet (put_block_completed_m demoCourse demoStudent
            (put_block_completed_m demoCourse demoStudent [] "1" "1" "0")
            "1" "1" "0") (unit_key "1")
          = pyGet (put_block_completed_m demoCourse demoStudent [] "1" "1"
              "0") (unit_key "1")) :=
  ⟨by decide, by decide, by decide,
    c7_repeat_block_event_idempotent_above demoCourse demoStudent [] "1"
      "1" "0" (by decide) (by decide) (by decide) (by decide) (by decide)
      (by decide) (by decide)⟩

/-! ## Blob layer: the stored value with explicit decode/encode and
Python exceptions -/

/-- The Python exception classes the store primitives distinguish:
_set_entity_value and _inc catch AttributeError/TypeError (collapsed to
typeError here) and nothing else; json decoding of malformed text raises
ValueError. -/
inductive PyErr
  | typeError
  | valueError
deriving DecidableEq, Repr

/-- The stored StudentPropertyEntity value: Python None (absent), a raw
string that is not valid JSON, or a well-formed serialization of a decoded
mapping. -/
inductive Blob
  | absent
  | malformed (s : String)
  | wellFormed (m : ProgressMap)
deriving DecidableEq, Repr

/-- Python truthiness of the stored value: None and the empty string are
falsy; a dumped mapping is a nonempty string and is truthy. -/
def Blob.falsy : Blob → Bool
  | .absent => true
  | .malformed s => s.isEmpty
  | .wellFormed _ => false

/-- Modelled from the spec: transforms.loads (models/transforms.py is not
among the sources).  Loading None raises TypeError; loading malformed text
raises ValueError, as asserted by tests/unit/models_transforms.py; a dumped
mapping round-trips. -/
def loads : Blob → Except PyErr ProgressMap
  | .absent => .error .typeError
  | .malformed _ => .error .valueError
  | .wellFormed m => .ok m

/-- Modelled from the spec: transforms.dumps re-serializes the mapping into
a fresh well-formed blob. -/
def dumps (m : ProgressMap) : Blob := .wellFormed m

/-- _get_entity_value: None when the stored value is falsy, else
loads(value).get(key).  No exception handling: a ValueError from malformed
text propagates. -/
def _get_entity_value (progress : Blob) (event_key : String) :
    Except PyErr (Option Nat) := do
  if progress.falsy then pure none
  else do
    let d ← loads progress
    pure (pyGet d event_key)

/-- _set_entity_value: decode — catching only (AttributeError, TypeError),
which yields the empty dict — then set and re-encode.  A ValueError from
malformed text propagates. -/
def _set_entity_value (student_property : Blob) (key : String)
    (value : Nat) : Except PyErr Blob :=
  match loads student_property with
  | .ok d => .ok (dumps (pySet d key value))
  | .error .typeError => .ok (dumps (pySet [] key value))
  | .error .valueError => .error .valueError

/-- _inc: decode — catching only (AttributeError, TypeError) — initialize
an absent key to 0, add value, re-encode. -/
def _inc (student_property : Blob) (key : String) (value : Nat) :
    Except PyErr Blob :=
  match loads student_property with
  | .ok d => .ok (dumps (pyInc d key value))
  | .error .typeError => .ok (dumps (pyInc [] key value))
  | .error .valueError => .error .valueError

/-- get_lesson_status on the stored blob. -/
def get_lesson_status (progress : Blob) (unit_id lesson_id : String) :
    Except PyErr (Option Nat) :=
  _get_entity_value progress (lesson_key unit_id lesson_id)

/-- get_activity_status on the stored blob. -/
def get_activity_status (progress : Blob) (unit_id lesson_id : String) :
    Except PyErr (Option Nat) :=
  _get_entity_value progress (activity_key unit_id lesson_id)

/-- get_html_status on the stored blob. -/
def get_html_status (progress : Blob) (unit_id lesson_id : String) :
    Except PyErr (Option Nat) :=
  _get_entity_value progress (html_key unit_id lesson_id)

/-- is_block_completed on the stored blob: value is not None and
value > 0. -/
def is_block_completed (progress : Blob) (unit_id lesson_id b : String) :
    Except PyErr Bool := do
  let v ← _get_entity_value progress (block_key unit_id lesson_id b)
  pure (match v with
    | some n => 0 < n
    | none => false)

/-- is_component_completed on the stored blob. -/
def is_component_completed (progress : Blob) (unit_id lesson_id cid : String) :
    Except PyErr Bool := do
  let v ← _get_entity_value progress (component_key unit_id lesson_id cid)
  pure (match v with
    | some n => 0 < n
    | none => false)

/-- The for-loop of _update_unit: stop at the first lesson whose
lesson-status is not COMPLETED. -/
def unitLessonsLoop (progress : Blob) (unit_id : String) :
    List Lesson → Except PyErr Bool
  | [] => pure true
  | le :: rest => do
      let s ← get_lesson_status progress unit_id le.lesson_id
      if s == some COMPLETED_STATE then unitLessonsLoop progress unit_id rest
      else pure false

/-- The for-loop of _update_lesson: for each lesson matching the key's
lesson_id token, stop if its activity (when present) or its html body is
not COMPLETED. -/
def lessonChildrenLoop (progress : Blob) (unit_id lesson_id : String) :
    List Lesson → Except PyErr Bool
  | [] => pure true
  | le :: rest => do
      if le.lesson_id = lesson_id then do
        let actOk ←
          if le.activity then do
            let sa ← get_activity_status progress unit_id lesson_id
            pure (sa == some COMPLETED_STATE)
          else pure true
        if actOk then do
          let sh ← get_html_status progress unit_id lesson_id
          if sh == some COMPLETED_STATE then
            lessonChildrenLoop progress unit_id lesson_id rest
          else pure false
        else pure false
      else lessonChildrenLoop progress unit_id lesson_id rest

/-- The for-loop of _update_activity over the valid block ids. -/
def activityBlocksLoop (progress : Blob) (unit_id lesson_id : String) :
    List String → Except PyErr Bool
  | [] => pure true
  | bid :: rest => do
      let done ← is_block_completed progress unit_id lesson_id bid
      if done then activityBlocksLoop progress unit_id lesson_id rest
      else pure false

/-- The for-loop of _update_html over the valid component ids. -/
def htmlComponentsLoop (progress : Blob) (unit_id lesson_id : String) :
    List String → Except PyErr Bool
  | [] => pure true
  | cid :: rest => do
      let done ← is_component_completed progress unit_id lesson_id cid
      if done then htmlComponentsLoop progress unit_id lesson_id rest
      else pure false

/-- _update_unit on the stored blob. -/
def _update_unit (c : Course) (progress : Blob) (event_key : String) :
    Except PyErr Blob := do
  let unit_id := (pySplit event_key)[1]?.getD ""
  let v ← _get_entity_value progress event_key
  if v == some COMPLETED_STATE then pure progress
  else do
    let p1 ← _set_entity_value progress event_key IN_PROGRESS_STATE
    let allDone ← unitLessonsLoop p1 unit_id (c.get_lessons unit_id)
    if allDone then _set_entity_value p1 event_key COMPLETED_STATE
    else pure p1

/-- _update_lesson on the stored blob. -/
def _update_lesson (c : Course) (progress : Blob) (event_key : String) :
    Except PyErr Blob := do
  let parts := pySplit event_key
  let unit_id := parts[1]?.getD ""
  let lesson_id := parts[3]?.getD ""
  let v ← _get_entity_value progress event_key
  if v == some COMPLETED_STATE then pure progress
  else do
    let p1 ← _set_entity_value progress event_key IN_PROGRESS_STATE
    let allDone ←
      lessonChildrenLoop p1 unit_id lesson_id (c.get_lessons unit_id)
    if allDone then _set_entity_value p1 event_key COMPLETED_STATE
    else pure p1

/-- _update_activity on the stored blob. -/
def _update_activity (c : Course) (progress : Blob) (event_key : String) :
    Except PyErr Blob := do
  let parts := pySplit event_key
  let unit_id := parts[1]?.getD ""
  let lesson_id := parts[3]?.getD ""
  let v ← _get_entity_value progress event_key
  if v == some COMPLETED_STATE then pure progress
  else do
    let p1 ← _set_entity_value progress event_key IN_PROGRESS_STATE
    let allDone ← activityBlocksLoop p1 unit_id lesson_id
      (c.get_valid_block_ids unit_id lesson_id)
    if allDone then _set_entity_value p1 event_key COMPLETED_STATE
    else pure p1

/-- _update_html on the stored blob. -/
def _update_html (c : Course) (progress : Blob) (event_key : String) :
    Except PyErr Blob := do
  let parts := pySplit event_key
  let unit_id := parts[1]?.getD ""
  let lesson_id := parts[3]?.getD ""
  let v ← _get_entity_value progress event_key
  if v == some COMPLETED_STATE then pure progress
  else do
    let p1 ← _set_entity_value progress event_key IN_PROGRESS_STATE
    let allDone ← htmlComponentsLoop p1 unit_id lesson_id
      (c.get_valid_component_ids unit_id lesson_id)
    if allDone then _set_entity_value p1 event_key COMPLETED_STATE
    else pure p1

/-- UPDATER_MAPPING dispatch on the stored blob; the catch-all arm is
unreachable (guarded by hasUpdater). -/
def runUpdater (c : Course) (progress : Blob) (e : Entity)
    (event_key : String) : Except PyErr Blob :=
  match e with
  | .activity => _update_activity c progress event_key
  | .html => _update_html c progress event_key
  | .lesson => _update_lesson c progress event_key
  | .unit => _update_unit c progress event_key
  | _ => pure progress

/-- _update_event on the stored blob: the direct handling followed by the
recursive cascade into the derived parent. -/
def _update_event (c : Course) (student : Student) (progress : Blob)
    (e : Entity) (event_key : String) (direct_update : Bool) :
    Except PyErr Blob := do
  let p1 ←
    if direct_update || !hasUpdater e then
      if hasUpdater e then
        _set_entity_value progress event_key COMPLETED_STATE
      else _inc progress event_key 1
    else runUpdater c progress e event_key
  match hp : derivedParent e with
  | some pe =>
      _update_event c student p1 pe (generate_parent_id event_key) false
  | none => pure p1
termination_by e.rank
decreasing_by cases e <;> simp_all [derivedParent] <;> subst hp <;> decide

/-- _put_event on the stored blob: transient students are ignored
(event_entity is always in EVENT_CODE_MAPPING here); get_or_create_progress
only creates the entity — its value stays None — and the final put() is the
persistence boundary. -/
def _put_event (c : Course) (student : Student) (stored : Blob) (e : Entity)
    (event_key : String) : Except PyErr Blob :=
  if student.is_transient then .ok stored
  else _update_event c student stored e event_key true

/-- put_activity_completed on the stored blob. -/
def put_activity_completed (c : Course) (student : Student) (stored : Blob)
    (u l : String) : Except PyErr Blob :=
  if !c.is_valid_unit_lesson_id u l then .ok stored
  else _put_event c student stored .activity (activity_key u l)

/-- put_html_completed on the stored blob. -/
def put_html_completed (c : Course) (student : Student) (stored : Blob)
    (u l : String) : Except PyErr Blob :=
  if !c.is_valid_unit_lesson_id u l then .ok stored
  else _put_event c student stored .html (html_key u l)

/-- put_block_completed on the stored blob: both validity guards run before
any read or write of the stored record. -/
def put_block_completed (c : Course) (student : Student) (stored : Blob)
    (u l b : String) : Except PyErr Blob :=
  if !c.is_valid_unit_lesson_id u l then .ok stored
  else if !(c.get_valid_block_ids u l).contains b then .ok stored
  else _put_event c student stored .block (block_key u l b)

/-- put_component_completed on the stored blob. -/
def put_component_completed (c : Course) (student : Student) (stored : Blob)
    (u l cid : String) : Except PyErr Blob :=
  if !c.is_valid_unit_lesson_id u l then .ok stored
  else if !(c.get_valid_component_ids u l).contains cid then .ok stored
  else _put_event c student stored .component (component_key u l cid)

/-- put_assessment_completed on the stored blob. -/
def put_assessment_completed (c : Course) (student : Student)
    (stored : Blob) (a : String) : Except PyErr Blob :=
  if !c.is_valid_assessment_id a then .ok stored
  else _put_event c student stored .assessment (assessment_key a)

/-- put_activity_accessed on the stored blob. -/
def put_activity_accessed (c : Course) (student : Student) (stored : Blob)
    (u l : String) : Except PyErr Blob :=
  if (c.get_valid_block_ids u l).isEmpty then
    put_activity_completed c student stored u l
  else .ok stored

/-- put_html_accessed on the stored blob. -/
def put_html_accessed (c : Course) (student : Student) (stored : Blob)
    (u l : String) : Except PyErr Blob :=
  if (c.get_valid_component_ids u l).isEmpty then
    put_html_completed c student stored u l
  else .ok stored

/-! ## C3 and C4 -/

/-- C3: for a non-transient student and a valid (unit, lesson) pair,
recording a block completion with a block id not among
get_valid_block_ids(unit, lesson) is a complete no-op: no error is raised
and the stored progress record is returned byte-for-byte unchanged (the
guard returns before any read or write of the store). -/
theorem c3_invalid_block_id_noop (c : Course) (st : Student) (stored : Blob)
    (u l b : String) (hval : c.is_valid_unit_lesson_id u l = true)
    (ht : st.is_transient = false)
    (hb : (c.get_valid_block_ids u l).contains b = false) :
    put_block_completed c st stored u l b = .ok stored := by
  unfold put_block_completed
  rw [hval, hb]
  simp

/-- Witness for C3: block id "7" is not valid for unit "1" lesson "1" of
the demo course; a nonempty stored record is returned unchanged. -/
theorem c3_invalid_block_id_noop_witness :
    demoCourse.is_valid_unit_lesson_id "1" "1" = true
    ∧ demoStudent.is_transient = false
    ∧ (demoCourse.get_valid_block_ids "1" "1").contains "7" = false
    ∧ put_block_completed demoCourse demoStudent
        (Blob.wellFormed [("u.1", 1)]) "1" "1" "7"
        = .ok (Blob.wellFormed [("u.1", 1)]) :=
  ⟨by decide, by decide, by decide,
    c3_invalid_block_id_noop demoCourse demoStudent
      (Blob.wellFormed [("u.1", 1)]) "1" "1" "7" (by decide) (by decide)
      (by decide)⟩

/-- Counterexample to C4 as stated: on a malformed (non-empty, non-JSON)
stored blob, the read path and both mutate paths raise ValueError instead
of treating the blob as an empty mapping — only AttributeError/TypeError
are caught. -/
theorem c4_malformed_blob_raises_counterexample :
    _get_entity_value (Blob.malformed "not json") "u.1"
        = .error PyErr.valueError
    ∧ _set_entity_value (Blob.malformed "not json") "u.1" 1
        = .error PyErr.valueError
    ∧ _inc (Blob.malformed "not json") "u.1" 1
        = .error PyErr.valueError := by
  refine ⟨?_, rfl, rfl⟩
  have hf : (Blob.malformed "not json").falsy = false := by decide
  simp [_get_entity_value, hf, loads]

/-- C4 amended: an absent blob (Python None) is the healed case — the read
path returns None and the mutate paths decode it to the empty mapping and
re-serialize a fresh well-formed blob — while a malformed stored string
raises ValueError on the mutate paths, and on the read path too when it is
non-empty (an empty string reads as None because it is falsy). -/
theorem c4_absent_heals_malformed_raises (k : String) (v : Nat)
    (s : String) :
    _get_entity_value Blob.absent k = .ok none
    ∧ _set_entity_value Blob.absent k v = .ok (dumps (pySet [] k v))
    ∧ _inc Blob.absent k v = .ok (dumps (pyInc [] k v))
    ∧ (s.isEmpty = false →
        _get_entity_value (Blob.malformed s) k = .error PyErr.valueError)
    ∧ _set_entity_value (Blob.malformed s) k v = .error PyErr.valueError
    ∧ _inc (Blob.malformed s) k v = .error PyErr.valueError := by
  refine ⟨rfl, rfl, rfl, fun h => ?_, rfl, rfl⟩
  simp [_get_entity_value, Blob.falsy, h, loads]

/-- Witness for C4's amended statement at a concrete key, value and
malformed text. -/
theorem c4_absent_heals_malformed_raises_witness :
    ("xyz" : String).isEmpty = false
    ∧ (_get_entity_value Blob.absent "u.1" = .ok none
      ∧ _set_entity_value Blob.absent "u.1" 1
          = .ok (dumps (pySet [] "u.1" 1))
      ∧ _inc Blob.absent "u.1" 1 = .ok (dumps (pyInc [] "u.1" 1))
      ∧ (("xyz" : String).isEmpty = false →
          _get_entity_value (Blob.malformed "xyz") "u.1"
            = .error PyErr.valueError)
      ∧ _set_entity_value (Blob.malformed "xyz") "u.1" 1
          = .error PyErr.valueError
      ∧ _inc (Blob.malformed "xyz") "u.1" 1 = .error PyErr.valueError) :=
  ⟨by decide, c4_absent_heals_malformed_raises "u.1" 1 "xyz"⟩

/-! ## Bridge: on a well-formed blob the blob layer computes the map layer -/

theorem _get_entity_value_wf (m : ProgressMap) (k : String) :
    _get_entity_value (Blob.wellFormed m) k = .ok (pyGet m k) := rfl

theorem _set_entity_value_wf (m : ProgressMap) (k : String) (v : Nat) :
    _set_entity_value (Blob.wellFormed m) k v
      = .ok (Blob.wellFormed (pySet m k v)) := rfl

theorem _inc_wf (m : ProgressMap) (k : String) (v : Nat) :
    _inc (Blob.wellFormed m) k v = .ok (Blob.wellFormed (pyInc m k v)) := rfl

theorem is_block_completed_wf (m : ProgressMap) (u l b : String) :
    is_block_completed (Blob.wellFormed m) u l b
      = .ok (is_block_completed_m m u l b) := rfl

theorem is_component_completed_wf (m : ProgressMap) (u l cid : String) :
    is_component_completed (Blob.wellFormed m) u l cid
      = .ok (is_component_completed_m m u l cid) := rfl

theorem get_lesson_status_wf (m : ProgressMap) (u l : String) :
    get_lesson_status (Blob.wellFormed m) u l
      = .ok (get_lesson_status_m m u l) := rfl

theorem unitLessonsLoop_wf (m : ProgressMap) (u : String)
    (ls : List Lesson) :
    unitLessonsLoop (Blob.wellFormed m) u ls
      = .ok (ls.all fun le =>
          get_lesson_status_m m u le.lesson_id == some COMPLETED_STATE) := by
  induction ls with
  | nil => rfl
  | cons le rest ih =>
    cases h : (get_lesson_status_m m u le.lesson_id
        == some COMPLETED_STATE) <;>
      simp [unitLessonsLoop, get_lesson_status_wf, Bind.bind, Except.bind,
        Pure.pure, Except.pure, h, ih, List.all_cons]

theorem lessonChildrenLoop_wf (m : ProgressMap) (u l : String)
    (ls : List Lesson) :
    lessonChildrenLoop (Blob.wellFormed m) u l ls
      = .ok (ls.all fun le =>
          if le.lesson_id = l then
            (!le.activity
              || get_activity_status_m m u l == some COMPLETED_STATE)
            && (get_html_status_m m u l == some COMPLETED_STATE)
          else true) := by
  induction ls with
  | nil => rfl
  | cons le rest ih =>
    by_cases hid : le.lesson_id = l
    · by_cases hA : pyGet m (activity_key u l) = some COMPLETED_STATE <;>
        by_cases hH : pyGet m (html_key u l) = some COMPLETED_STATE <;>
          cases hact : le.activity <;>
            simp [lessonChildrenLoop, hid, hact, hA, hH, Bind.bind,
              Except.bind, Pure.pure, Except.pure, ih, List.all_cons,
              get_activity_status, get_html_status,
              get_activity_status_m, get_html_status_m, _get_entity_value,
              Blob.falsy, loads, beq_iff_eq]
    · simp [lessonChildrenLoop, hid, ih, List.all_cons]

theorem activityBlocksLoop_wf (m : ProgressMap) (u l : String)
    (bs : List String) :
    activityBlocksLoop (Blob.wellFormed m) u l bs
      = .ok (bs.all fun bid => is_block_completed_m m u l bid) := by
  induction bs with
  | nil => rfl
  | cons bid rest ih =>
    cases h : is_block_completed_m m u l bid <;>
      simp [activityBlocksLoop, is_block_completed_wf, Bind.bind,
        Except.bind, Pure.pure, Except.pure, h, ih, List.all_cons]

theorem htmlComponentsLoop_wf (m : ProgressMap) (u l : String)
    (cs : List String) :
    htmlComponentsLoop (Blob.wellFormed m) u l cs
      = .ok (cs.all fun cid => is_component_completed_m m u l cid) := by
  induction cs with
  | nil => rfl
  | cons cid rest ih =>
    cases h : is_component_completed_m m u l cid <;>
      simp [htmlComponentsLoop, is_component_completed_wf, Bind.bind,
        Except.bind, Pure.pure, Except.pure, h, ih, List.all_cons]

theorem _update_unit_wf (c : Course) (m : ProgressMap) (k : String) :
    _update_unit c (Blob.wellFormed m) k
      = .ok (Blob.wellFormed (update_unit_m c m k)) := by
  unfold _update_unit update_unit_m
  rw [_get_entity_value_wf]
  simp only [Bind.bind, Except.bind, _set_entity_value_wf, unitLessonsLoop_wf]
  split
  · simp_all [Pure.pure, Except.pure]
  · split <;> simp_all [Pure.pure, Except.pure]

theorem _update_lesson_wf (c : Course) (m : ProgressMap) (k : String) :
    _update_lesson c (Blob.wellFormed m) k
      = .ok (Blob.wellFormed (update_lesson_m c m k)) := by
  unfold _update_lesson update_lesson_m
  rw [_get_entity_value_wf]
  simp only [Bind.bind, Except.bind, _set_entity_value_wf, lessonChildrenLoop_wf]
  split
  · simp_all [Pure.pure, Except.pure]
  · split <;> simp_all [Pure.pure, Except.pure]

theorem _update_activity_wf (c : Course) (m : ProgressMap) (k : String) :
    _update_activity c (Blob.wellFormed m) k
      = .ok (Blob.wellFormed (update_activity_m c m k)) := by
  unfold _update_activity update_activity_m
  rw [_get_entity_value_wf]
  simp only [Bind.bind, Except.bind, _set_entity_value_wf, activityBlocksLoop_wf]
  split
  · simp_all [Pure.pure, Except.pure]
  · split <;> simp_all [Pure.pure, Except.pure]

theorem _update_html_wf (c : Course) (m : ProgressMap) (k : String) :
    _update_html c (Blob.wellFormed m) k
      = .ok (Blob.wellFormed (update_html_m c m k)) := by
  unfold _update_html update_html_m
  rw [_get_entity_value_wf]
  simp only [Bind.bind, Except.bind, _set_entity_value_wf, htmlComponentsLoop_wf]
  split
  · simp_all [Pure.pure, Except.pure]
  · split <;> simp_all [Pure.pure, Except.pure]

theorem ue_wf_unit (c : Course) (st : Student) (m : ProgressMap)
    (key : String) (du : Bool) :
    _update_event c st (Blob.wellFormed m) .unit key du
      = .ok (Blob.wellFormed (update_event_m c m .unit key du)) := by
  cases du <;>
    rw [_update_event, update_event_m] <;>
      simp [hasUpdater, derivedParent, runUpdater, runUpdater_m, Bind.bind,
        Except.bind, _update_unit_wf, _set_entity_value_wf, Pure.pure,
        Except.pure]

theorem ue_wf_lesson (c : Course) (st : Student) (m : ProgressMap)
    (key : String) (du : Bool) :
    _update_event c st (Blob.wellFormed m) .lesson key du
      = .ok (Blob.wellFormed (update_event_m c m .lesson key du)) := by
  cases du <;>
    rw [_update_event, update_event_m] <;>
      simp [hasUpdater, derivedParent, runUpdater, runUpdater_m, Bind.bind,
        Except.bind, _update_lesson_wf, _set_entity_value_wf, ue_wf_unit,
        Pure.pure, Except.pure]

theorem ue_wf_activity (c : Course) (st : Student) (m : ProgressMap)
    (key : String) (du : Bool) :
    _update_event c st (Blob.wellFormed m) .activity key du
      = .ok (Blob.wellFormed (update_event_m c m .activity key du)) := by
  cases du <;>
    rw [_update_event, update_event_m] <;>
      simp [hasUpdater, derivedParent, runUpdater, runUpdater_m, Bind.bind,
        Except.bind, _update_activity_wf, _set_entity_value_wf,
        ue_wf_lesson, Pure.pure, Except.pure]

theorem ue_wf_html (c : Course) (st : Student) (m : ProgressMap)
    (key : String) (du : Bool) :
    _update_event c st (Blob.wellFormed m) .html key du
      = .ok (Blob.wellFormed (update_event_m c m .html key du)) := by
  cases du <;>
    rw [_update_event, update_event_m] <;>
      simp [hasUpdater, derivedParent, runUpdater, runUpdater_m, Bind.bind,
        Except.bind, _update_html_wf, _set_entity_value_wf, ue_wf_lesson,
        Pure.pure, Except.pure]

theorem ue_wf_block (c : Course) (st : Student) (m : ProgressMap)
    (key : String) (du : Bool) :
    _update_event c st (Blob.wellFormed m) .block key du
      = .ok (Blob.wellFormed (update_event_m c m .block key du)) := by
  cases du <;>
    rw [_update_event, update_event_m] <;>
      simp [hasUpdater, derivedParent, Bind.bind, Except.bind, _inc_wf,
        ue_wf_activity, Pure.pure, Except.pure]

theorem ue_wf_component (c : Course) (st : Student) (m : ProgressMap)
    (key : String) (du : Bool) :
    _update_event c st (Blob.wellFormed m) .component key du
      = .ok (Blob.wellFormed (update_event_m c m .component key du)) := by
  cases du <;>
    rw [_update_event, update_event_m] <;>
      simp [hasUpdater, derivedParent, Bind.bind, Except.bind, _inc_wf,
        ue_wf_html, Pure.pure, Except.pure]

theorem ue_wf_assessment (c : Course) (st : Student) (m : ProgressMap)
    (key : String) (du : Bool) :
    _update_event c st (Blob.wellFormed m) .assessment key du
      = .ok (Blob.wellFormed (update_event_m c m .assessment key du)) := by
  cases du <;>
    rw [_update_event, update_event_m] <;>
      simp [hasUpdater, derivedParent, Bind.bind, Except.bind, _inc_wf,
        Pure.pure, Except.pure]

/-- On a well-formed stored blob the full blob-layer cascade computes
exactly the map-layer cascade. -/
theorem _update_event_wf (c : Course) (st : Student) (m : ProgressMap)
    (e : Entity) (key : String) (du : Bool) :
    _update_event c st (Blob.wellFormed m) e key du
      = .ok (Blob.wellFormed (update_event_m c m e key du)) := by
  cases e
  · exact ue_wf_unit c st m key du
  · exact ue_wf_lesson c st m key du
  · exact ue_wf_activity c st m key du
  · exact ue_wf_html c st m key du
  · exact ue_wf_block c st m key du
  · exact ue_wf_assessment c st m key du
  · exact ue_wf_component c st m key du

theorem _put_event_wf (c : Course) (st : Student) (m : ProgressMap)
    (e : Entity) (key : String) :
    _put_event c st (Blob.wellFormed m) e key
      = .ok (Blob.wellFormed (put_event_m c st m e key)) := by
  by_cases htr : st.is_transient = true <;>
    simp [_put_event, put_event_m, htr, _update_event_wf]

theorem put_block_completed_wf (c : Course) (st : Student)
    (m : ProgressMap) (u l b : String) :
    put_block_completed c st (Blob.wellFormed m) u l b
      = .ok (Blob.wellFormed (put_block_completed_m c st m u l b)) := by
  simp only [put_block_completed, put_block_completed_m]
  split
  · rfl
  · split
    · rfl
    · exact _put_event_wf c st m .block (block_key u l b)

theorem put_component_completed_wf (c : Course) (st : Student)
    (m : ProgressMap) (u l cid : String) :
    put_component_completed c st (Blob.wellFormed m) u l cid
      = .ok (Blob.wellFormed (put_component_completed_m c st m u l cid)) := by
  simp only [put_component_completed, put_component_completed_m]
  split
  · rfl
  · split
    · rfl
    · exact _put_event_wf c st m .component (component_key u l cid)

theorem put_assessment_completed_wf (c : Course) (st : Student)
    (m : ProgressMap) (a : String) :
    put_assessment_completed c st (Blob.wellFormed m) a
      = .ok (Blob.wellFormed (put_assessment_completed_m c st m a)) := by
  simp only [put_assessment_completed, put_assessment_completed_m]
  split
  · rfl
  · exact _put_event_wf c st m .assessment (assessment_key a)

theorem put_activity_completed_wf (c : Course) (st : Student)
    (m : ProgressMap) (u l : String) :
    put_activity_completed c st (Blob.wellFormed m) u l
      = .ok (Blob.wellFormed (put_activity_completed_m c st m u l)) := by
  simp only [put_activity_completed, put_activity_completed_m]
  split
  · rfl
  · exact _put_event_wf c st m .activity (activity_key u l)

theorem put_html_completed_wf (c : Course) (st : Student) (m : ProgressMap)
    (u l : String) :
    put_html_completed c st (Blob.wellFormed m) u l
      = .ok (Blob.wellFormed (put_html_completed_m c st m u l)) := by
  simp only [put_html_completed, put_html_completed_m]
  split
  · rfl
  · exact _put_event_wf c st m .html (html_key u l)

end Progress
